import Mathlib

namespace MahoGen

/-!
Verification of the mahocommerce-extension-builder generator against its
natural-language specification.

The Python sources are shallowly embedded: dictionaries become structures
whose optional keys are Option-valued fields, functions that can raise
KeyError or IndexError return Option (none models the raised exception),
and the filesystem side effects of the generator are modelled as the
ordered trace of file paths written (file contents depend on
datetime.now() and are irrelevant to every claim, so the write events
carry the path only).
-/

/-! ## ASCII character helpers mirroring the Python string methods used -/

def isAsciiUpperCh (c : Char) : Bool := 'A' ≤ c && c ≤ 'Z'

def isAsciiLowerCh (c : Char) : Bool := 'a' ≤ c && c ≤ 'z'

def isAsciiAlphaCh (c : Char) : Bool := isAsciiUpperCh c || isAsciiLowerCh c

def isAsciiDigitCh (c : Char) : Bool := '0' ≤ c && c ≤ '9'

def toLowerCh (c : Char) : Char :=
  if isAsciiUpperCh c then Char.ofNat (c.toNat + 32) else c

def toUpperCh (c : Char) : Char :=
  if isAsciiLowerCh c then Char.ofNat (c.toNat - 32) else c

/-- Python str.lower, restricted to ASCII letters. -/
def pyLower (s : String) : String := String.mk (s.data.map toLowerCh)

/-- Python str.capitalize: first character uppercased, the rest lowercased. -/
def pyCapitalize (s : String) : String :=
  match s.data with
  | [] => ""
  | c :: cs => String.mk (toUpperCh c :: cs.map toLowerCh)

/-- Core recursion of Python str.title: a letter is uppercased when the
previous character was not a letter and lowercased otherwise. -/
def pyTitleGo : Bool → List Char → List Char
  | _, [] => []
  | prevCased, c :: cs =>
    let cased := isAsciiAlphaCh c
    let c2 := if cased then (if prevCased then toLowerCh c else toUpperCh c) else c
    c2 :: pyTitleGo cased cs

/-- Replacement of underscores by spaces, as in str.replace. -/
def underscoresToSpaces (s : String) : String :=
  String.mk (s.data.map (fun c => if c = '_' then ' ' else c))

/-- Python str.title, restricted to ASCII letters. -/
def pyTitle (s : String) : String := String.mk (pyTitleGo false s.data)

/-! ## lib/utils.py : to_snake_case

The function applies two re.sub passes and lowercases the result. Each
pass is embedded as a left-to-right scan replacing non-overlapping
matches, exactly as re.sub does. -/

/-- First substitution pass of to_snake_case: the Python pattern matches
any non-newline character, then an uppercase letter followed by one or
more lowercase letters (greedy), and inserts an underscore after the
first character. Scanning resumes after the matched span. -/
def snakeSub1 : List Char → List Char
  | [] => []
  | [c] => [c]
  | c :: u :: rest =>
    if c ≠ '\n' && isAsciiUpperCh u &&
        (match rest with | l :: _ => isAsciiLowerCh l | [] => false) then
      let run := rest.takeWhile isAsciiLowerCh
      let rem := rest.dropWhile isAsciiLowerCh
      c :: '_' :: u :: (run ++ snakeSub1 rem)
    else
      c :: snakeSub1 (u :: rest)
termination_by l => l.length
decreasing_by
  · simp only [List.length_cons]
    have h := (List.dropWhile_suffix (l := rest) isAsciiLowerCh).sublist.length_le
    omega
  · simp

/-- Second substitution pass of to_snake_case: the Python pattern matches a
lowercase letter or digit followed by an uppercase letter and inserts an
underscore between them; the matched span is consumed. -/
def snakeSub2 : List Char → List Char
  | [] => []
  | [c] => [c]
  | c :: u :: rest =>
    if (isAsciiLowerCh c || isAsciiDigitCh c) && isAsciiUpperCh u then
      c :: '_' :: u :: snakeSub2 rest
    else
      c :: snakeSub2 (u :: rest)
termination_by l => l.length

/-- Embedding of lib/utils.py to_snake_case. -/
def to_snake_case (text : String) : String :=
  String.mk ((snakeSub2 (snakeSub1 text.data)).map toLowerCh)

/-! ## Configuration data model

A module configuration is a JSON/YAML dictionary. Each structure below
collects the keys that the embedded functions read or write; an absent
key is none. The nested admin and frontend sub-dictionaries of fields and
entities are flattened into prefixed fields, which preserves the observable
behaviour of every embedded function. -/

structure FieldCfg where
  name : Option String := none
  type : Option String := none
  nullable : Option Bool := none
  label : Option String := none
  length : Option Int := none
  admin_grid : Option Bool := none
  admin_form : Option Bool := none
  deriving DecidableEq, Repr

structure RelCfg where
  target : Option String := none
  type : Option String := none
  junction_table : Option String := none
  deriving DecidableEq, Repr

structure SidebarBlockCfg where
  type : Option String := none
  entity : Option String := none
  deriving DecidableEq, Repr

structure EntityCfg where
  name : Option String := none
  label : Option String := none
  table : Option String := none
  title : Option String := none
  fields : Option (List FieldCfg) := none
  admin_menu : Option Bool := none
  admin_acl : Option Bool := none
  frontend_enabled : Option Bool := none
  frontend_sidebar_blocks : Option (List SidebarBlockCfg) := none
  multi_store : Option Bool := none
  relationships : Option (List RelCfg) := none
  deriving DecidableEq, Repr

structure RelSpecCfg where
  entity1 : Option String := none
  entity2 : Option String := none
  type : Option String := none
  deriving DecidableEq, Repr

structure ModuleCfg where
  name : Option String := none
  namespace_ : Option String := none
  version : Option String := none
  module : Option String := none
  entities : Option (List EntityCfg) := none
  relationships : Option (List RelSpecCfg) := none
  frontend_route : Option String := none
  skip_frontend : Option Bool := none
  deriving DecidableEq, Repr

/-! ## lib/config.py : validate_config -/

/-- Embedding of the valid_types list in validate_config. -/
def valid_types : List String :=
  ["int", "smallint", "bigint", "tinyint",
   "varchar", "text", "mediumtext", "longtext",
   "decimal", "float", "double",
   "datetime", "date", "timestamp",
   "boolean", "bool"]

/-- Error messages produced for one field of one entity by validate_config. -/
def fieldErrors (entityRef : String) (fieldIdx : Nat) (f : FieldCfg) : List String :=
  let fieldRef := entityRef ++ ", Field " ++ toString fieldIdx
  (if f.name = none then [fieldRef ++ ": Missing required field \x27name\x27"] else []) ++
  (match f.type with
   | some t =>
     if valid_types.contains t then []
     else [fieldRef ++ ": Invalid type \x27" ++ t ++ "\x27. Valid types: " ++
           String.intercalate ", " valid_types]
   | none => [])

/-- Error messages produced for one relationship of one entity by validate_config. -/
def relErrors (entityRef : String) (relIdx : Nat) (r : RelCfg) : List String :=
  let relRef := entityRef ++ ", Relationship " ++ toString relIdx
  (if r.target = none then [relRef ++ ": Missing required field \x27target\x27"] else []) ++
  (match r.type with
   | some t =>
     if t = "one_to_many" || t = "many_to_many" then []
     else [relRef ++ ": Invalid type \x27" ++ t ++ "\x27. Valid types: one_to_many, many_to_many"]
   | none => [])

/-- Error messages produced for one entity by validate_config. -/
def entityErrors (idx : Nat) (e : EntityCfg) : List String :=
  let entityRef := "Entity " ++ toString idx ++ " (\x27" ++ e.name.getD "unnamed" ++ "\x27)"
  (if e.name = none then [entityRef ++ ": Missing required field \x27name\x27"] else []) ++
  (match e.fields with
   | none => [entityRef ++ ": Must have at least one field"]
   | some [] => [entityRef ++ ": Must have at least one field"]
   | some fs => (fs.enum.map fun p => fieldErrors entityRef p.1 p.2).flatten) ++
  (match e.relationships with
   | none => []
   | some rs => (rs.enum.map fun p => relErrors entityRef p.1 p.2).flatten)

/-- Embedding of lib/config.py validate_config. -/
def validate_config (c : ModuleCfg) : Bool × List String :=
  let errors :=
    (if c.name = none then ["Missing required field: \x27name\x27"] else []) ++
    (if c.namespace_ = none then ["Missing required field: \x27namespace\x27"] else []) ++
    (match c.entities with
     | none => ["Module must have at least one entity"]
     | some [] => ["Module must have at least one entity"]
     | some es => (es.enum.map fun p => entityErrors p.1 p.2).flatten)
  (errors.isEmpty, errors)

/-! ## lib/config.py : apply_defaults

apply_defaults mutates the configuration in place, setting only keys that
are absent; it raises KeyError when a default it must compute reads an
absent key (the name of an entity or field, or the target of a
relationship), which the embedding models as none. Each source statement
becomes one small function applied in the source order. -/

/-- Default for the type key of a field. -/
def fdType (f : FieldCfg) : FieldCfg := { f with type := some (f.type.getD "varchar") }

/-- Default for the nullable key of a field. -/
def fdNullable (f : FieldCfg) : FieldCfg := { f with nullable := some (f.nullable.getD true) }

/-- Default label of a field, derived from its name (KeyError when the
name is absent). -/
def fdLabel (f : FieldCfg) : Option FieldCfg :=
  match f.label with
  | some _ => some f
  | none =>
    match f.name with
    | some n => some { f with label := some (pyTitle (underscoresToSpaces n)) }
    | none => none

/-- Default length 255 for varchar fields (the text branch of the source
condition sets nothing). -/
def fdLength (f : FieldCfg) : FieldCfg :=
  if (f.type = some "varchar" || f.type = some "text") && f.length = none then
    (if f.type = some "varchar" then { f with length := some 255 } else f)
  else f

/-- Default admin grid flag of a field, computed from its name. -/
def fdGrid (f : FieldCfg) : Option FieldCfg :=
  match f.admin_grid with
  | some _ => some f
  | none =>
    match f.name with
    | some n =>
      some { f with admin_grid := some (["name", "title", "status", "created_at"].contains n) }
    | none => none

/-- Default admin form flag of a field, computed from its name. -/
def fdForm (f : FieldCfg) : Option FieldCfg :=
  match f.admin_form with
  | some _ => some f
  | none =>
    match f.name with
    | some n =>
      some { f with admin_form := some (!(["created_at", "updated_at"].contains n)) }
    | none => none

/-- Field half of apply_defaults, in source statement order. -/
def apply_defaults_field (f : FieldCfg) : Option FieldCfg :=
  (fdLabel (fdNullable (fdType f))).bind fun f1 =>
    (fdGrid (fdLength f1)).bind fun f2 =>
      fdForm f2

/-- Relationship half of apply_defaults. The junction-table default reads
the name of the enclosing entity eagerly (it is the default argument of
an entity.get call), then its table, then the relationship target. -/
def apply_defaults_rel (ent : EntityCfg) (r : RelCfg) : Option RelCfg :=
  let r1 : RelCfg := { r with type := some (r.type.getD "many_to_many") }
  if r1.type = some "many_to_many" && r1.junction_table = none then
    match ent.name with
    | none => none
    | some n =>
      let entity_table := ent.table.getD (to_snake_case n)
      match r1.target with
      | none => none
      | some t =>
        let target_table := to_snake_case t
        let lo := if entity_table ≤ target_table then entity_table else target_table
        let hi := if entity_table ≤ target_table then target_table else entity_table
        some { r1 with junction_table := some (lo ++ "_" ++ hi) }
  else some r1

/-- Default label of an entity, derived from its name. -/
def edLabel (e : EntityCfg) : Option EntityCfg :=
  match e.label with
  | some _ => some e
  | none =>
    match e.name with
    | some n => some { e with label := some (pyTitle (underscoresToSpaces n)) }
    | none => none

/-- Default table of an entity, derived from its name. -/
def edTable (e : EntityCfg) : Option EntityCfg :=
  match e.table with
  | some _ => some e
  | none =>
    match e.name with
    | some n => some { e with table := some (to_snake_case n) }
    | none => none

/-- Auto-enable of multi_store for frontend entities. -/
def edMulti (e : EntityCfg) : EntityCfg :=
  if e.frontend_enabled = some true && e.multi_store = none then
    { e with multi_store := some true }
  else e

/-- Ensure the fields list exists, defaulting to empty. -/
def edFieldsFill (e : EntityCfg) : EntityCfg :=
  if e.fields = none then { e with fields := some [] } else e

/-- Store the processed fields list back into the entity. -/
def edSetFields (e : EntityCfg) (fs : List FieldCfg) : EntityCfg := { e with fields := some fs }

/-- Default for the admin menu flag. -/
def edMenu (e : EntityCfg) : EntityCfg := { e with admin_menu := some (e.admin_menu.getD true) }

/-- Default for the admin acl flag. -/
def edAcl (e : EntityCfg) : EntityCfg := { e with admin_acl := some (e.admin_acl.getD true) }

/-- Default for the frontend enabled flag. -/
def edEnab (e : EntityCfg) : EntityCfg :=
  { e with frontend_enabled := some (e.frontend_enabled.getD false) }

/-- Per-relationship defaults of an entity, when a relationships list exists. -/
def edRels (e : EntityCfg) : Option EntityCfg :=
  match e.relationships with
  | none => some e
  | some rs => (rs.mapM (apply_defaults_rel e)).bind fun rs2 =>
      some { e with relationships := some rs2 }

/-- Entity part of apply_defaults, in source statement order: label,
table, fields ensured and processed, admin menu and acl, frontend
enabled, multi_store auto-enable, relationships. -/
def apply_defaults_entity (e : EntityCfg) : Option EntityCfg :=
  (edLabel e).bind fun e1 =>
  (edTable e1).bind fun e2 =>
  (((edFieldsFill e2).fields.getD []).mapM apply_defaults_field).bind fun fs =>
  edRels (edMulti (edEnab (edAcl (edMenu (edSetFields (edFieldsFill e2) fs)))))

/-- Default for the module namespace. -/
def cdNamespace (c : ModuleCfg) : ModuleCfg :=
  { c with namespace_ := some (c.namespace_.getD "Maho") }

/-- Default for the module version. -/
def cdVersion (c : ModuleCfg) : ModuleCfg :=
  { c with version := some (c.version.getD "24.11.0") }

/-- Entity defaults, when an entities list exists. -/
def cdEntities (c : ModuleCfg) : Option ModuleCfg :=
  match c.entities with
  | none => some c
  | some es => (es.mapM apply_defaults_entity).bind fun es2 =>
      some { c with entities := some es2 }

/-- Embedding of lib/config.py apply_defaults. -/
def apply_defaults (c : ModuleCfg) : Option ModuleCfg :=
  cdEntities (cdVersion (cdNamespace c))

/-! ## lib/utils.py : get_code_pool and check_conflicts -/

/-- Embedding of lib/utils.py get_code_pool. -/
def get_code_pool (namespace_ : String) : String :=
  if namespace_ = "Maho" || namespace_ = "Mage" then "core"
  else if namespace_ = "Custom" || namespace_ = "Local" then "local"
  else "community"

/-- Embedding of lib/utils.py check_conflicts. The filesystem is the
predicate pathExists; base_path is passed explicitly (the source default
derives it from the script location). -/
def check_conflicts (pathExists : String → Bool)
    (namespace_ module_name base_path : String) : List String :=
  let code_pool := get_code_pool namespace_
  let module_xml :=
    base_path ++ "/app/etc/modules/" ++ namespace_ ++ "_" ++ module_name ++ ".xml"
  let module_dir :=
    base_path ++ "/app/code/" ++ code_pool ++ "/" ++ namespace_ ++ "/" ++ module_name
  (if pathExists module_xml then [module_xml] else []) ++
  (if pathExists module_dir then [module_dir] else [])

/-! ## lib/field_utils.py -/

/-- Embedding of the TYPE_ALIASES lookup in normalize_field_type. -/
def normalize_field_type (field_type : String) : String :=
  let t := pyLower field_type
  if t = "tinyint" then "smallint"
  else if t = "timestamp" then "datetime"
  else if t = "boolean" then "bool"
  else if t = "string" then "varchar"
  else t

/-- Embedding of lib/field_utils.py should_show_in_grid. The source reads
the name key unconditionally but only after the explicit-setting check;
none is returned when the name is absent (KeyError). -/
def should_show_in_grid (f : FieldCfg) : Option Bool :=
  match f.admin_grid with
  | some b => some b
  | none =>
    match f.name with
    | none => none
    | some field_name =>
      let field_type := normalize_field_type (f.type.getD "varchar")
      if ["name", "title", "email"].contains field_name then some true
      else if field_name.endsWith "_id" && field_name ≠ "entity_id" then some true
      else if field_name.startsWith "is_" || field_name.startsWith "allow_" then some true
      else if field_name = "status" then some true
      else if ["text", "longtext", "mediumtext"].contains field_type then some false
      else if field_name.startsWith "meta_" then some false
      else if ["content", "body", "description", "bio"].contains field_name then some false
      else if field_type = "varchar" then some (f.length.getD 255 ≤ 255)
      else if ["int", "smallint", "decimal"].contains field_type then some true
      else if ["datetime", "date"].contains field_type then some true
      else some false

/-! ## generate-module.py : detect_relationships -/

/-- Embedding of detect_relationships. The source lowercases each entity
name (KeyError when a name is absent, modelled as none), then pairs every
main-pattern name present with every related-pattern name present,
skipping author. -/
def detect_relationships (entities : List EntityCfg) : Option (List (String × String)) :=
  (entities.mapM (fun (e : EntityCfg) => e.name.map pyLower)).bind fun entity_names =>
  let main_entities := ["post", "product", "item", "article"]
  let related_entities := ["category", "tag", "author"]
  some (main_entities.flatMap fun main =>
    if entity_names.contains main then
      related_entities.filterMap fun related =>
        if entity_names.contains related && related ≠ "author" then some (main, related)
        else none
    else [])

/-! ## generate-module.py : generate_module, modelled as its write trace

The generator runs linearly: it checks conflicts, then writes files one by
one with path.write_text immediately followed by files_created.append.
The model threads both the ordered trace of write events and the
files_created list, mirroring each source write-append pair, and returns
them on success. Exceptions raised part way (KeyError on a missing
namespace, module or entity name; IndexError on an empty entity list with
the frontend enabled) become the err result carrying the writes performed
so far; sys.exit(1) becomes the exits result. stdin is modelled as not a
TTY (batch execution), so a frontend route conflict aborts. -/

/-- Filesystem state seen by the generator: existence of paths for the
conflict check (resolved against the script-derived default base path)
and whether some installed config.xml already declares a frontend route
name. -/
structure FSState where
  pathExists : String → Bool
  routeTaken : String → Bool
  scriptBase : String

/-- Outcome of a generate_module run: normal return with the write trace
and the files_created list, sys.exit with a code, or an uncaught
exception; around the latter the __main__ wrapper exits with code 1. -/
inductive GenResult where
  | ok (writes : List String) (files_created : List String)
  | exits (code : Nat) (writes : List String)
  | err (writes : List String)
  deriving DecidableEq, Repr

/-- Projection returning the files_created list of a successful run. -/
def GenResult.retList : GenResult → Option (List String)
  | .ok _ r => some r
  | .exits _ _ => none
  | .err _ => none

/-- Embedding of check_frontend_route_conflict: the source scans installed
config.xml files for a frontName element equal to front_name; the scan is
abstracted by the routeTaken predicate of the filesystem state. -/
def check_frontend_route_conflict (fs : FSState) (front_name : String) : Bool :=
  fs.routeTaken front_name

/-- Embedding of the many-to-many pair comprehension over the top-level
relationships key of the config (KeyError when entity1 or entity2 is
absent on a many_to_many item). -/
def config_relationship_pairs (cfg : ModuleCfg) : Option (List (String × String)) :=
  ((cfg.relationships.getD []).mapM fun (r : RelSpecCfg) =>
    if r.type = some "many_to_many" then
      match r.entity1, r.entity2 with
      | some a, some b => some (some (pyLower a, pyLower b))
      | _, _ => (none : Option (Option (String × String)))
    else some none).map fun l => l.filterMap id

/-- Files written for one entity by generate_entity_files, in order:
model, resource model, collection, admin controller, then the four admin
blocks. -/
def per_entity_writes (code_path n : String) : List String :=
  let c := pyCapitalize n
  [ code_path ++ "/Model/" ++ c ++ ".php",
    code_path ++ "/Model/Resource/" ++ c ++ ".php",
    code_path ++ "/Model/Resource/" ++ c ++ "/Collection.php",
    code_path ++ "/controllers/Adminhtml/" ++ c ++ "Controller.php",
    code_path ++ "/Block/Adminhtml/" ++ c ++ ".php",
    code_path ++ "/Block/Adminhtml/" ++ c ++ "/Grid.php",
    code_path ++ "/Block/Adminhtml/" ++ c ++ "/Edit.php",
    code_path ++ "/Block/Adminhtml/" ++ c ++ "/Edit/Form.php" ]

/-- Predicate for the frontend-enabled lookup on an entity. -/
def entityFrontendEnabled (e : EntityCfg) : Bool := e.frontend_enabled.getD false

/-- Files written by generate_related_entity_controllers: one controller
per sidebar block of the primary frontend entity that names an existing
entity. -/
def related_controller_writes (code_path : String) (entities : List EntityCfg) : List String :=
  match entities.find? entityFrontendEnabled with
  | none => []
  | some p =>
    (p.frontend_sidebar_blocks.getD []).filterMap fun bc =>
      match bc.entity with
      | none => none
      | some en =>
        if entities.any (fun e => e.name = some en) then
          some (code_path ++ "/controllers/" ++ pyCapitalize en ++ "Controller.php")
        else none

/-- Files written by generate_sidebar_blocks: for each configured sidebar
block, a Recent block and template, or a related-entity block and
template when the named entity exists. -/
def sidebar_writes (code_path nsl mdl : String) (entities : List EntityCfg) : List String :=
  match entities.find? entityFrontendEnabled with
  | none => []
  | some p =>
    let sbc := p.frontend_sidebar_blocks.getD []
    if sbc.isEmpty then []
    else
      let tpl := "app/design/frontend/base/default/template/" ++ nsl ++ "/" ++ mdl ++ "/sidebar"
      sbc.flatMap fun bc =>
        if bc.type = some "recent" then
          [code_path ++ "/Block/Sidebar/Recent.php", tpl ++ "/recent.phtml"]
        else
          match bc.entity with
          | some en =>
            if entities.any (fun e => e.name = some en) then
              [code_path ++ "/Block/Sidebar/" ++ pyCapitalize en ++ "s.php",
               tpl ++ "/" ++ en ++ "s.phtml"]
            else []
          | none => []

/-- Files written by the frontend generation step when skip_frontend is
not set, in source call order: index controller, related-entity
controllers, list and view blocks, sidebar blocks, then the two phtml
templates (whose base path in the source is relative, prefixed with
../../../). Caller guarantees entities is nonempty. -/
def frontend_writes (code_path nsl mdl : String) (entities : List EntityCfg) : List String :=
  (code_path ++ "/controllers/IndexController.php") ::
  related_controller_writes code_path entities ++
  [code_path ++ "/Block/List.php", code_path ++ "/Block/View.php"] ++
  sidebar_writes code_path nsl mdl entities ++
  ["../../../app/design/frontend/base/default/template/" ++ nsl ++ "/" ++ mdl ++ "/list.phtml",
   "../../../app/design/frontend/base/default/template/" ++ nsl ++ "/" ++ mdl ++ "/view.phtml"]

/-- Embedding of generate_module as its trace of file writes together
with the files_created list it returns. Every write_text in the source is
immediately followed by files_created.append of the same path, so the two
lists are built statement by statement side by side. -/
def generate_module (fs : FSState) (cfg : ModuleCfg) : GenResult :=
  match cfg.namespace_ with
  | none => .err []
  | some ns =>
  match cfg.module with
  | none => .err []
  | some md =>
  let entities := cfg.entities.getD []
  match entities.mapM (fun (e : EntityCfg) => e.name) with
  | none => .err []
  | some names =>
  let conflicts := check_conflicts fs.pathExists ns md fs.scriptBase
  if conflicts ≠ [] then .exits 1 []
  else
  let front_name := cfg.frontend_route.getD (pyLower md)
  if check_frontend_route_conflict fs front_name then .exits 1 []
  else
  let code_pool := get_code_pool ns
  let code_path := "app/code/" ++ code_pool ++ "/" ++ ns ++ "/" ++ md
  let nsl := pyLower ns
  let mdl := pyLower md
  let module_decl_path := "app/etc/modules/" ++ ns ++ "_" ++ md ++ ".xml"
  let writes1 := [module_decl_path]
  let files1 := [module_decl_path]
  match config_relationship_pairs cfg with
  | none => .err writes1
  | some _pairs =>
  let etc_config := code_path ++ "/etc/config.xml"
  let etc_adminhtml := code_path ++ "/etc/adminhtml.xml"
  let helper_data := code_path ++ "/Helper/Data.php"
  let writes4 := writes1 ++ [etc_config, etc_adminhtml, helper_data]
  let files4 := files1 ++ [etc_config, etc_adminhtml, helper_data]
  let entity_writes := names.flatMap (per_entity_writes code_path)
  let skip_frontend := cfg.skip_frontend.getD false
  if skip_frontend = false ∧ entities = [] then .err (writes4 ++ entity_writes)
  else
  let fw := if skip_frontend then [] else frontend_writes code_path nsl mdl entities
  let observer :=
    if entities = [] then []
    else [code_path ++ "/Model/Observer/UrlRewrite.php"]
  let adm_layout := "app/design/adminhtml/default/default/layout/" ++ nsl ++ "/" ++ mdl ++ ".xml"
  let fe_layout := "app/design/frontend/base/default/layout/" ++ nsl ++ "/" ++ mdl ++ ".xml"
  let sql :=
    if entities = [] then []
    else [code_path ++ "/sql/" ++ nsl ++ "_" ++ mdl ++ "_setup/install-1.0.0.php"]
  let writes := writes4 ++ entity_writes ++ fw ++ observer ++ [adm_layout, fe_layout] ++ sql
  let files := files4 ++ entity_writes ++ fw ++ observer ++ [adm_layout, fe_layout] ++ sql
  .ok writes files

/-- Embedding of the __main__ wrapper around generate_module: a normal
return exits 0, sys.exit propagates its code, and any other exception is
caught and turned into sys.exit(1). The pair is the process exit code and
the files written. -/
def run_main (fs : FSState) (cfg : ModuleCfg) : Nat × List String :=
  match generate_module fs cfg with
  | .ok w _ => (0, w)
  | .exits c w => (c, w)
  | .err w => (1, w)

/-! ## introspect.py, modelled as its trace of file accesses

Every file of the scanned installation is opened with mode r (or parsed
or stat-ed, also reads); the only open calls with mode w are in
save_results. The trace model records one readF event per scanned file
and one writeF event per file save_results opens for writing. The sets of
files each analysis pass visits (the rglob and walk results) are
parameters of the model. -/

inductive FileEvent where
  | readF (path : String)
  | writeF (path : String)
  deriving DecidableEq, Repr

/-- Listing of the files of the scanned installation that the seven
analysis passes of run_full_analysis visit, in pass order. -/
structure ScanListing where
  coreClassFiles : List String
  configSchemaFiles : List String
  adminPatternFiles : List String
  javascriptFiles : List String
  databaseScriptFiles : List String
  layoutFiles : List String
  referenceImplFiles : List String

/-- All files of the installation visited by run_full_analysis. -/
def ScanListing.allScanned (L : ScanListing) : List String :=
  L.coreClassFiles ++ L.configSchemaFiles ++ L.adminPatternFiles ++
  L.javascriptFiles ++ L.databaseScriptFiles ++ L.layoutFiles ++ L.referenceImplFiles

/-- Trace of MahoIntrospector.run_full_analysis: every file of the
installation visited by any pass is opened for reading only. -/
def run_full_analysis_events (L : ScanListing) : List FileEvent :=
  L.allScanned.map FileEvent.readF

/-- Result keys stored by run_full_analysis, in insertion order. -/
def introspection_result_keys : List String :=
  ["metadata", "core_classes", "config_schemas", "admin_patterns",
   "javascript", "database", "layout", "reference_impls"]

/-- Trace of MahoIntrospector.save_results: one JSON file per result key
under the analysis subdirectory of the output directory, then the summary
markdown directly in the output directory. -/
def save_results_events (output_dir : String) : List FileEvent :=
  introspection_result_keys.map
    (fun k => FileEvent.writeF (output_dir ++ "/analysis/" ++ k ++ ".json")) ++
  [FileEvent.writeF (output_dir ++ "/INTROSPECTION_SUMMARY.md")]

/-- Trace of the introspect.py main function: run_full_analysis over the
installation, then save_results into the output directory. -/
def introspect_main_events (L : ScanListing) (output_dir : String) : List FileEvent :=
  run_full_analysis_events L ++ save_results_events output_dir

/-- Projection keeping write events only. -/
def writePaths (events : List FileEvent) : List String :=
  events.filterMap fun e => match e with
    | .writeF p => some p
    | .readF _ => none

/-- Projection keeping read events only. -/
def readPaths (events : List FileEvent) : List String :=
  events.filterMap fun e => match e with
    | .writeF _ => none
    | .readF p => some p

/-! ## Generic helper lemmas about Option-valued mapM -/

/-! ## Claim C3 : check_conflicts -/

/-! ## Claim C6 : detect_relationships -/

/-- Names of the entities after the lowercasing the source applies. -/
def loweredName (e : EntityCfg) : Option String := e.name.map pyLower

/-- Entity used to instantiate the detect_relationships claim. -/
def entPost : EntityCfg := { name := some "Post" }

/-- Second entity used to instantiate the detect_relationships claim. -/
def entCategory : EntityCfg := { name := some "Category" }

/-! ## Claim C7 : should_show_in_grid -/

/-- Name-based positive rules of the grid-visibility claim. -/
def gridNameRule (n : String) : Bool :=
  ["name", "title", "email", "status"].contains n ||
  (n.endsWith "_id" && n ≠ "entity_id") ||
  (n.startsWith "is_" || n.startsWith "allow_")

/-- Negative rules of the grid-visibility claim: large text types, meta
fields, and content-like names. -/
def gridNegativeRule (f : FieldCfg) (n : String) : Bool :=
  let t := normalize_field_type (f.type.getD "varchar")
  ["text", "longtext", "mediumtext"].contains t ||
  n.startsWith "meta_" ||
  ["content", "body", "description", "bio"].contains n

/-- Type-based positive rules of the grid-visibility claim. -/
def gridTypeRule (f : FieldCfg) : Bool :=
  let t := normalize_field_type (f.type.getD "varchar")
  ["int", "smallint", "decimal", "datetime", "date"].contains t ||
  (t = "varchar" && f.length.getD 255 ≤ 255)

/-- Grid visibility as the claim states it: a name rule fires, or no name
rule and no negative rule fires and a type rule does. -/
def gridClaimSpec (f : FieldCfg) (n : String) : Bool :=
  gridNameRule n || (!gridNegativeRule f n && gridTypeRule f)

/-! ## Claim C8 : the introspection tool is read-only on the scanned tree -/

/-- Listing used to instantiate the introspection claim. -/
def sampleListing : ScanListing :=
  { coreClassFiles := ["maho/app/code/core/Maho/A.php"]
    configSchemaFiles := []
    adminPatternFiles := []
    javascriptFiles := []
    databaseScriptFiles := []
    layoutFiles := []
    referenceImplFiles := [] }

/-- String prefix test on the underlying character lists, used to state
that a path lies under a directory. -/
def pathUnder (dir p : String) : Bool := dir.data.isPrefixOf p.data

/-! ## Claim C5 : the returned list is exactly what was written -/

/-! ## Claim C10 : conflicts abort before any write -/

/-- Filesystem state used to instantiate the conflict-abort claim: the
module declaration file exists. -/
def conflictFS : FSState :=
  { pathExists := fun p => p = "base/app/etc/modules/Maho_Blog.xml"
    routeTaken := fun _ => false
    scriptBase := "base" }

/-- Configuration used to instantiate the conflict-abort claim. -/
def blogCfg : ModuleCfg :=
  { namespace_ := some "Maho", module := some "Blog",
    entities := some [{ name := some "post" }] }

/-! ## Claim C4 : fixed write order -/

/-- Filesystem state with no existing files or routes, used to
instantiate the write-order claim. -/
def emptyFS : FSState :=
  { pathExists := fun _ => false
    routeTaken := fun _ => false
    scriptBase := "base" }

/-! ## Claim C1 : validate_config -/

/-- Field requirement of the validation claim: a name is present and any
declared type is in the fixed valid-type list. -/
def fieldOKspec (f : FieldCfg) : Bool :=
  f.name.isSome &&
  (match f.type with | some t => valid_types.contains t | none => true)

/-- Relationship requirement of the validation claim: a target is present
and any declared type is one_to_many or many_to_many. -/
def relOKspec (r : RelCfg) : Bool :=
  r.target.isSome &&
  (match r.type with | some t => (t = "one_to_many" || t = "many_to_many") | none => true)

/-- Entity requirement of the validation claim: a name, a non-empty field
list whose fields all satisfy fieldOKspec, and all relationships valid. -/
def entityOKspec (e : EntityCfg) : Bool :=
  e.name.isSome &&
  (match e.fields with
   | none => false
   | some [] => false
   | some fs => fs.all fieldOKspec) &&
  (e.relationships.getD []).all relOKspec

/-- Configuration requirement of the validation claim. -/
def configOKspec (c : ModuleCfg) : Bool :=
  c.name.isSome && c.namespace_.isSome &&
  (match c.entities with
   | none => false
   | some [] => false
   | some es => es.all entityOKspec)

/-- Number of violated requirements in one field. -/
def fieldViolations (f : FieldCfg) : Nat :=
  (if f.name = none then 1 else 0) +
  (match f.type with
   | some t => if valid_types.contains t then 0 else 1
   | none => 0)

/-- Number of violated requirements in one relationship. -/
def relViolations (r : RelCfg) : Nat :=
  (if r.target = none then 1 else 0) +
  (match r.type with
   | some t => if t = "one_to_many" || t = "many_to_many" then 0 else 1
   | none => 0)

/-- Number of violated requirements in one entity. -/
def entityViolations (e : EntityCfg) : Nat :=
  (if e.name = none then 1 else 0) +
  (match e.fields with
   | none => 1
   | some [] => 1
   | some fs => (fs.map fieldViolations).sum) +
  ((e.relationships.getD []).map relViolations).sum

/-- Number of violated requirements in a configuration. -/
def configViolations (c : ModuleCfg) : Nat :=
  (if c.name = none then 1 else 0) + (if c.namespace_ = none then 1 else 0) +
  (match c.entities with
   | none => 1
   | some [] => 1
   | some es => (es.map entityViolations).sum)

/-! ## Claims C2 and C9 : apply_defaults -/

/-- Preservation of one optional key: a value already present is kept. -/
def optPreserved {α : Type} (old new : Option α) : Prop :=
  ∀ v, old = some v → new = some v

/-- Keywise preservation for a field. -/
def fieldPreserved (f g : FieldCfg) : Prop :=
  optPreserved f.name g.name ∧ optPreserved f.type g.type ∧
  optPreserved f.nullable g.nullable ∧ optPreserved f.label g.label ∧
  optPreserved f.length g.length ∧ optPreserved f.admin_grid g.admin_grid ∧
  optPreserved f.admin_form g.admin_form

/-- Defaults guaranteed on a field after apply_defaults, as the claim
lists them. -/
def fieldDefaulted (f g : FieldCfg) : Prop :=
  g.type.isSome = true ∧ (f.type = none → g.type = some "varchar") ∧
  g.nullable.isSome = true ∧ (f.nullable = none → g.nullable = some true) ∧
  g.label.isSome = true ∧
  g.admin_grid.isSome = true ∧
  (f.admin_grid = none → ∃ n, f.name = some n ∧
    g.admin_grid = some (["name", "title", "status", "created_at"].contains n)) ∧
  g.admin_form.isSome = true ∧
  (f.admin_form = none → ∃ n, f.name = some n ∧
    g.admin_form = some (!(["created_at", "updated_at"].contains n))) ∧
  (g.type = some "varchar" → g.length.isSome = true ∧
    (f.length = none → g.length = some 255))

/-- Keywise preservation for a relationship. -/
def relPreserved (r g : RelCfg) : Prop :=
  optPreserved r.target g.target ∧ optPreserved r.type g.type ∧
  optPreserved r.junction_table g.junction_table

/-- Defaults guaranteed on a relationship after apply_defaults. -/
def relDefaulted (r g : RelCfg) : Prop :=
  g.type.isSome = true ∧ (r.type = none → g.type = some "many_to_many") ∧
  (g.type = some "many_to_many" → g.junction_table.isSome = true)

/-- Keywise preservation for an entity. -/
def entityPreserved (e g : EntityCfg) : Prop :=
  optPreserved e.name g.name ∧ optPreserved e.label g.label ∧ optPreserved e.table g.table ∧
  optPreserved e.title g.title ∧
  (∀ fs, e.fields = some fs → ∃ gs, g.fields = some gs ∧ List.Forall₂ fieldPreserved fs gs) ∧
  optPreserved e.admin_menu g.admin_menu ∧ optPreserved e.admin_acl g.admin_acl ∧
  optPreserved e.frontend_enabled g.frontend_enabled ∧
  optPreserved e.frontend_sidebar_blocks g.frontend_sidebar_blocks ∧
  optPreserved e.multi_store g.multi_store ∧
  (∀ rs, e.relationships = some rs → ∃ gs, g.relationships = some gs ∧
    List.Forall₂ relPreserved rs gs)

/-- Guarantees on one relationship of a processed entity. -/
def relPost (g : RelCfg) : Prop :=
  g.type.isSome = true ∧ (g.type = some "many_to_many" → g.junction_table.isSome = true)

/-- Defaults guaranteed on an entity after apply_defaults. -/
def entityDefaulted (e g : EntityCfg) : Prop :=
  g.label.isSome = true ∧ g.table.isSome = true ∧ g.fields.isSome = true ∧
  g.admin_menu.isSome = true ∧ g.admin_acl.isSome = true ∧
  g.frontend_enabled.isSome = true ∧
  (e.frontend_enabled = none → g.frontend_enabled = some false) ∧
  List.Forall₂ fieldDefaulted (e.fields.getD []) (g.fields.getD []) ∧
  (∀ r ∈ g.relationships.getD [], relPost r)

/-- Keywise preservation for a whole configuration. -/
def configPreserved (c g : ModuleCfg) : Prop :=
  optPreserved c.name g.name ∧ optPreserved c.namespace_ g.namespace_ ∧
  optPreserved c.version g.version ∧ optPreserved c.module g.module ∧
  (∀ es, c.entities = some es → ∃ gs, g.entities = some gs ∧
    List.Forall₂ entityPreserved es gs) ∧
  optPreserved c.relationships g.relationships ∧
  optPreserved c.frontend_route g.frontend_route ∧
  optPreserved c.skip_frontend g.skip_frontend

/-- Defaults guaranteed on a whole configuration after apply_defaults. -/
def configDefaulted (c g : ModuleCfg) : Prop :=
  g.namespace_.isSome = true ∧ g.version.isSome = true ∧
  List.Forall₂ entityDefaulted (c.entities.getD []) (g.entities.getD [])

/-- Input configuration exercising the default paths of apply_defaults. -/
def c2wIn : ModuleCfg :=
  { name := some "Blog",
    entities := some [
      { name := some "post",
        table := some "blog_post",
        fields := some [
          { name := some "title", type := some "varchar" },
          { name := some "created_at", type := some "datetime" }],
        frontend_enabled := some true,
        relationships := some [
          { target := some "category", junction_table := some "blog_category_post" }] }] }

/-- Second input configuration for the idempotence check. -/
def c9wIn : ModuleCfg :=
  { name := some "Faq",
    version := some "1.0.0",
    entities := some [
      { name := some "question",
        table := some "faq_question",
        fields := some [{ name := some "sort_order", type := some "int" }] }] }

/-- Expected result of apply_defaults on c2wIn. -/
def c2wOut : ModuleCfg :=
  { name := some "Blog",
    namespace_ := some "Maho",
    version := some "24.11.0",
    entities := some [
      { name := some "post",
        label := some "Post",
        table := some "blog_post",
        fields := some [
          { name := some "title", type := some "varchar", nullable := some true,
            label := some "Title", length := some 255,
            admin_grid := some true, admin_form := some true },
          { name := some "created_at", type := some "datetime", nullable := some true,
            label := some "Created At",
            admin_grid := some true, admin_form := some false }],
        admin_menu := some true,
        admin_acl := some true,
        frontend_enabled := some true,
        multi_store := some true,
        relationships := some [
          { target := some "category", type := some "many_to_many",
            junction_table := some "blog_category_post" }] }] }

/-- Expected result of apply_defaults on c9wIn. -/
def c9wOut : ModuleCfg :=
  { name := some "Faq",
    namespace_ := some "Maho",
    version := some "1.0.0",
    entities := some [
      { name := some "question",
        label := some "Question",
        table := some "faq_question",
        fields := some [
          { name := some "sort_order", type := some "int", nullable := some true,
            label := some "Sort Order",
            admin_grid := some false, admin_form := some true }],
        admin_menu := some true,
        admin_acl := some true,
        frontend_enabled := some false }] }

theorem mapM_option_mem {α β : Type} (g : α → Option β) :
    ∀ (l : List α) (l2 : List β), l.mapM g = some l2 →
      ∀ b, b ∈ l2 ↔ ∃ a ∈ l, g a = some b := by
  intro l
  induction l with
  | nil => intro l2 h b; simp only [List.mapM_nil, Option.pure_def, Option.some.injEq] at h
           subst h; simp
  | cons a t ih =>
    intro l2 h b
    simp only [List.mapM_cons, Option.pure_def, Option.bind_eq_bind,
      Option.bind_eq_some, Option.some.injEq] at h
    obtain ⟨b0, hb0, t2, ht2, rfl⟩ := h
    simp only [List.mem_cons, ih t2 ht2 b]
    constructor
    · rintro (rfl | ⟨a2, ha2, hg⟩)
      · exact ⟨a, Or.inl rfl, hb0⟩
      · exact ⟨a2, Or.inr ha2, hg⟩
    · rintro ⟨a2, (rfl | ha2), hg⟩
      · rw [hg] at hb0
        exact Or.inl (Option.some_inj.mp hb0)
      · exact Or.inr ⟨a2, ha2, hg⟩

theorem mapM_option_forall2 {α β : Type} (g : α → Option β) (P : α → β → Prop)
    (hP : ∀ a b, g a = some b → P a b) :
    ∀ (l : List α) (l2 : List β), l.mapM g = some l2 → List.Forall₂ P l l2 := by
  intro l
  induction l with
  | nil => intro l2 h; simp only [List.mapM_nil, Option.pure_def, Option.some.injEq] at h
           subst h; exact List.Forall₂.nil
  | cons a t ih =>
    intro l2 h
    simp only [List.mapM_cons, Option.pure_def, Option.bind_eq_bind,
      Option.bind_eq_some, Option.some.injEq] at h
    obtain ⟨b0, hb0, t2, ht2, rfl⟩ := h
    exact List.Forall₂.cons (hP a b0 hb0) (ih t2 ht2)

theorem mapM_option_fix {α : Type} (g g2 : α → Option α)
    (hg : ∀ a b, g a = some b → g2 b = some b) :
    ∀ (l l2 : List α), l.mapM g = some l2 → l2.mapM g2 = some l2 := by
  intro l
  induction l with
  | nil => intro l2 h; simp only [List.mapM_nil, Option.pure_def, Option.some.injEq] at h
           subst h; rfl
  | cons a t ih =>
    intro l2 h
    simp only [List.mapM_cons, Option.pure_def, Option.bind_eq_bind,
      Option.bind_eq_some, Option.some.injEq] at h
    obtain ⟨b0, hb0, t2, ht2, rfl⟩ := h
    rw [List.mapM_cons, hg a b0 hb0, ih t2 ht2]
    rfl

/-- Claim C3: check_conflicts returns the empty list exactly when neither
the module declaration file nor the module directory exists under the
base path, with the code pool chosen as the spec states (core for Maho
and Mage, local for Custom and Local, community otherwise); when
conflicts exist the list holds exactly the existing paths, declaration
file first. -/
theorem check_conflicts_spec (pathExists : String → Bool) (ns md bp : String) :
    (check_conflicts pathExists ns md bp = [] ↔
       pathExists (bp ++ "/app/etc/modules/" ++ ns ++ "_" ++ md ++ ".xml") = false ∧
       pathExists (bp ++ "/app/code/" ++
         (if ns = "Maho" ∨ ns = "Mage" then "core"
          else if ns = "Custom" ∨ ns = "Local" then "local" else "community") ++
         "/" ++ ns ++ "/" ++ md) = false) ∧
    check_conflicts pathExists ns md bp =
      (if pathExists (bp ++ "/app/etc/modules/" ++ ns ++ "_" ++ md ++ ".xml") then
        [bp ++ "/app/etc/modules/" ++ ns ++ "_" ++ md ++ ".xml"] else []) ++
      (if pathExists (bp ++ "/app/code/" ++
         (if ns = "Maho" ∨ ns = "Mage" then "core"
          else if ns = "Custom" ∨ ns = "Local" then "local" else "community") ++
         "/" ++ ns ++ "/" ++ md) then
        [bp ++ "/app/code/" ++
         (if ns = "Maho" ∨ ns = "Mage" then "core"
          else if ns = "Custom" ∨ ns = "Local" then "local" else "community") ++
         "/" ++ ns ++ "/" ++ md] else []) := by
  have hpool : get_code_pool ns =
      (if ns = "Maho" ∨ ns = "Mage" then "core"
       else if ns = "Custom" ∨ ns = "Local" then "local" else "community") := by
    unfold get_code_pool
    by_cases h1 : ns = "Maho" <;> by_cases h2 : ns = "Mage" <;>
      by_cases h3 : ns = "Custom" <;> by_cases h4 : ns = "Local" <;>
      simp [h1, h2, h3, h4]
  unfold check_conflicts
  rw [hpool]
  constructor
  · constructor
    · intro h
      by_cases h1 : pathExists (bp ++ "/app/etc/modules/" ++ ns ++ "_" ++ md ++ ".xml") <;>
        by_cases h2 : pathExists (bp ++ "/app/code/" ++
          (if ns = "Maho" ∨ ns = "Mage" then "core"
           else if ns = "Custom" ∨ ns = "Local" then "local" else "community") ++
          "/" ++ ns ++ "/" ++ md) <;>
        simp_all
    · rintro ⟨h1, h2⟩
      simp [h1, h2]
  · rfl

/-- Claim C6: when every entity has a name, a pair (main, related) is
returned by detect_relationships exactly when main is one of post,
product, item, article and related one of category, tag, and both occur
case-insensitively among the entity names; author is never paired, and
the main entity always comes first in the pair. -/
theorem detect_relationships_spec (entities : List EntityCfg)
    (rels : List (String × String))
    (h : detect_relationships entities = some rels) :
    (∀ m r, (m, r) ∈ rels ↔
       m ∈ ["post", "product", "item", "article"] ∧ r ∈ ["category", "tag"] ∧
       (∃ e ∈ entities, loweredName e = some m) ∧
       (∃ e ∈ entities, loweredName e = some r)) ∧
    (∀ m, (m, "author") ∉ rels) := by
  unfold detect_relationships at h
  rw [Option.bind_eq_some] at h
  obtain ⟨names, hnames, hrels⟩ := h
  simp only [Option.some.injEq] at hrels
  subst hrels
  have hmem : ∀ s, names.contains s = true ↔ ∃ e ∈ entities, loweredName e = some s := by
    intro s
    rw [List.contains_iff_exists_mem_beq]
    constructor
    · rintro ⟨a, ha, hbeq⟩
      have heq : s = a := by simpa using hbeq
      subst heq
      exact ((mapM_option_mem _ entities names hnames s).mp ha)
    · rintro ⟨e, he, hl⟩
      refine ⟨s, ?_, by simp⟩
      exact (mapM_option_mem _ entities names hnames s).mpr ⟨e, he, hl⟩
  constructor
  · intro m r
    constructor
    · intro hmr
      rw [List.mem_flatMap] at hmr
      obtain ⟨main, hmain, hpair⟩ := hmr
      by_cases hcont : names.contains main = true
      · rw [if_pos hcont, List.mem_filterMap] at hpair
        obtain ⟨related, hrelmem, hif⟩ := hpair
        by_cases hcond : (names.contains related && decide (related ≠ "author")) = true
        · rw [if_pos hcond, Option.some_inj] at hif
          cases hif
          rw [Bool.and_eq_true, decide_eq_true_eq] at hcond
          refine ⟨hmain, ?_, (hmem m).mp hcont, (hmem r).mp hcond.1⟩
          simp only [List.mem_cons, List.not_mem_nil, or_false] at hrelmem ⊢
          rcases hrelmem with rfl | rfl | rfl
          · exact Or.inl rfl
          · exact Or.inr rfl
          · exact absurd rfl hcond.2
        · rw [if_neg hcond] at hif
          exact Option.noConfusion hif
      · rw [if_neg hcont] at hpair
        exact absurd hpair (List.not_mem_nil _)
    · rintro ⟨hm, hr, hem, her⟩
      rw [List.mem_flatMap]
      refine ⟨m, hm, ?_⟩
      rw [if_pos ((hmem m).mpr hem), List.mem_filterMap]
      have hrne : r ≠ "author" := by
        simp only [List.mem_cons, List.not_mem_nil, or_false] at hr
        rcases hr with rfl | rfl <;> decide
      refine ⟨r, ?_, ?_⟩
      · simp only [List.mem_cons, List.not_mem_nil, or_false] at hr ⊢
        rcases hr with rfl | rfl
        · exact Or.inl rfl
        · exact Or.inr (Or.inl rfl)
      · rw [if_pos (by rw [Bool.and_eq_true, decide_eq_true_eq]
                       exact ⟨(hmem r).mpr her, hrne⟩)]
  · intro m hmem2
    rw [List.mem_flatMap] at hmem2
    obtain ⟨main, _, hpair⟩ := hmem2
    by_cases hcont : names.contains main = true
    · rw [if_pos hcont, List.mem_filterMap] at hpair
      obtain ⟨related, _, hif⟩ := hpair
      by_cases hcond : (names.contains related && decide (related ≠ "author")) = true
      · rw [if_pos hcond, Option.some_inj] at hif
        rw [Bool.and_eq_true, decide_eq_true_eq] at hcond
        exact hcond.2 (congrArg Prod.snd hif)
      · rw [if_neg hcond] at hif
        exact Option.noConfusion hif
    · rw [if_neg hcont] at hpair
      exact absurd hpair (List.not_mem_nil _)

/-- Witness instantiating detect_relationships_spec on a concrete entity
list containing Post and Category. -/
theorem detect_relationships_spec_witness :
    ("post", "category") ∈ [("post", "category")] :=
  ((detect_relationships_spec [entPost, entCategory] [("post", "category")] rfl).1
      "post" "category").mpr
    ⟨by decide, by decide, ⟨entPost, by simp, rfl⟩, ⟨entCategory, by simp, rfl⟩⟩

/-- Splitting of the name list of the claim into the two checks the
source performs. -/
theorem containsNameSplit (n : String) :
    (["name", "title", "email", "status"].contains n) =
      (["name", "title", "email"].contains n || n == "status") := by
  simp only [List.elem_eq_mem, List.mem_cons, List.not_mem_nil, or_false, beq_iff_eq]
  by_cases h1 : n = "name" <;> by_cases h2 : n = "title" <;> by_cases h3 : n = "email" <;>
    by_cases h4 : n = "status" <;> simp [h1, h2, h3, h4]

/-- Splitting of the type list of the claim into the two checks the
source performs. -/
theorem containsTypeSplit (t : String) :
    (["int", "smallint", "decimal", "datetime", "date"].contains t) =
      (["int", "smallint", "decimal"].contains t || ["datetime", "date"].contains t) := by
  simp only [List.elem_eq_mem, List.mem_cons, List.not_mem_nil, or_false, beq_iff_eq]
  by_cases h1 : t = "int" <;> by_cases h2 : t = "smallint" <;> by_cases h3 : t = "decimal" <;>
    by_cases h4 : t = "datetime" <;> by_cases h5 : t = "date" <;> simp [h1, h2, h3, h4, h5]

set_option maxHeartbeats 4000000 in
/-- Claim C7: should_show_in_grid returns the explicit admin.grid value
when set; otherwise it returns exactly the claimed characterization: true
when a name rule fires, false when a negative rule fires and no name rule
does, and otherwise whatever the type rules say. -/
theorem should_show_in_grid_spec (f : FieldCfg) :
    (∀ b, f.admin_grid = some b → should_show_in_grid f = some b) ∧
    (∀ n, f.admin_grid = none → f.name = some n →
      should_show_in_grid f = some (gridClaimSpec f n) ∧
      (gridNameRule n = false → gridNegativeRule f n = true →
        should_show_in_grid f = some false)) := by
  constructor
  · intro b hb
    unfold should_show_in_grid
    rw [hb]
  · intro n hg hn
    have hmain : should_show_in_grid f = some (gridClaimSpec f n) := by
      simp only [should_show_in_grid, gridClaimSpec, gridNameRule, gridNegativeRule,
        gridTypeRule, hg, hn, containsNameSplit, containsTypeSplit]
      split_ifs with h1 h2 h3 h4 h5 h6 h7 h8 h9 h10
      · simp only [h1, Bool.true_or]
      · rw [Bool.not_eq_true] at h1
        simp only [h1, h2, Bool.false_or, Bool.true_or, Bool.or_true]
      · rw [Bool.not_eq_true] at h1 h2
        simp only [h1, h2, h3, Bool.false_or, Bool.or_false, Bool.true_or, Bool.or_true]
      · rw [Bool.not_eq_true] at h1 h2 h3
        have hB : (n == "status") = true := beq_iff_eq.mpr h4
        simp only [h1, h2, h3, hB, Bool.false_or, Bool.or_false, Bool.true_or, Bool.or_true]
      · rw [Bool.not_eq_true] at h1 h2 h3
        have hB : (n == "status") = false := beq_eq_false_iff_ne.mpr h4
        simp only [h1, h2, h3, hB, h5, Bool.false_or, Bool.or_false, Bool.true_or,
          Bool.or_true, Bool.not_true, Bool.false_and, Bool.and_false]
      · rw [Bool.not_eq_true] at h1 h2 h3 h5
        have hB : (n == "status") = false := beq_eq_false_iff_ne.mpr h4
        simp only [h1, h2, h3, hB, h5, h6, Bool.false_or, Bool.or_false, Bool.true_or,
          Bool.or_true, Bool.not_true, Bool.false_and, Bool.and_false]
      · rw [Bool.not_eq_true] at h1 h2 h3 h5 h6
        have hB : (n == "status") = false := beq_eq_false_iff_ne.mpr h4
        simp only [h1, h2, h3, hB, h5, h6, h7, Bool.false_or, Bool.or_false, Bool.true_or,
          Bool.or_true, Bool.not_true, Bool.false_and, Bool.and_false]
      · rw [Bool.not_eq_true] at h1 h2 h3 h5 h6 h7
        have hB : (n == "status") = false := beq_eq_false_iff_ne.mpr h4
        have hV : (decide (normalize_field_type (f.type.getD "varchar") = "varchar")) = true :=
          decide_eq_true h8
        have hL : (["int", "smallint", "decimal"].contains
            (normalize_field_type (f.type.getD "varchar"))) = false := by
          rw [h8]; decide
        have hM : (["datetime", "date"].contains
            (normalize_field_type (f.type.getD "varchar"))) = false := by
          rw [h8]; decide
        simp only [h1, h2, h3, hB, h5, h6, h7, hV, hL, hM, Bool.false_or, Bool.or_false,
          Bool.true_or, Bool.or_true, Bool.not_true, Bool.not_false, Bool.false_and,
          Bool.and_false, Bool.true_and, Bool.and_true]
      · rw [Bool.not_eq_true] at h1 h2 h3 h5 h6 h7
        have hB : (n == "status") = false := beq_eq_false_iff_ne.mpr h4
        simp only [h1, h2, h3, hB, h5, h6, h7, h9, Bool.false_or, Bool.or_false,
          Bool.true_or, Bool.or_true, Bool.not_true, Bool.not_false, Bool.false_and,
          Bool.and_false, Bool.true_and, Bool.and_true]
      · rw [Bool.not_eq_true] at h1 h2 h3 h5 h6 h7 h9
        have hB : (n == "status") = false := beq_eq_false_iff_ne.mpr h4
        simp only [h1, h2, h3, hB, h5, h6, h7, h9, h10, Bool.false_or, Bool.or_false,
          Bool.true_or, Bool.or_true, Bool.not_true, Bool.not_false, Bool.false_and,
          Bool.and_false, Bool.true_and, Bool.and_true]
      · rw [Bool.not_eq_true] at h1 h2 h3 h5 h6 h7 h9 h10
        have hB : (n == "status") = false := beq_eq_false_iff_ne.mpr h4
        have hV : (decide (normalize_field_type (f.type.getD "varchar") = "varchar")) = false :=
          decide_eq_false h8
        simp only [h1, h2, h3, hB, h5, h6, h7, hV, h9, h10, Bool.false_or, Bool.or_false,
          Bool.true_or, Bool.or_true, Bool.not_true, Bool.not_false, Bool.false_and,
          Bool.and_false, Bool.true_and, Bool.and_true]
    refine ⟨hmain, fun hnr hneg => ?_⟩
    rw [hmain]
    unfold gridClaimSpec
    rw [hnr, hneg]
    rfl

/-- Witness instantiating should_show_in_grid_spec on a title field of
type text: the name rule wins over the large-text-type rule. -/
theorem should_show_in_grid_spec_witness :
    should_show_in_grid { name := some "title", type := some "text" } = some true := by
  have h := (should_show_in_grid_spec { name := some "title", type := some "text" }).2
    "title" rfl rfl
  rw [h.1]
  decide

/-- Counterexample to claim C8 as stated: not every file the tool writes
lies under the analysis subdirectory of the output directory; the summary
markdown is written directly into the output directory. -/
theorem introspect_summary_not_under_analysis :
    ¬ (∀ p ∈ writePaths (introspect_main_events sampleListing "out"),
        pathUnder "out/analysis/" p = true) := by
  intro h
  have h2 := h "out/INTROSPECTION_SUMMARY.md" (by decide)
  exact absurd h2 (by decide)

/-- Claim C8 (amended): the introspector reads exactly the files of the
scanned installation that its analysis passes visit, and its writes are
exactly the JSON report files under the analysis subdirectory of the
output directory plus the summary markdown at the top of the output
directory. -/
theorem introspect_events_spec (L : ScanListing) (out : String) :
    writePaths (introspect_main_events L out) =
      introspection_result_keys.map (fun k => out ++ "/analysis/" ++ k ++ ".json") ++
        [out ++ "/INTROSPECTION_SUMMARY.md"] ∧
    readPaths (introspect_main_events L out) = L.allScanned := by
  have wcons : ∀ (p : String) (es : List FileEvent),
      writePaths (FileEvent.writeF p :: es) = p :: writePaths es := by
    intro p es; simp [writePaths]
  have wconsR : ∀ (p : String) (es : List FileEvent),
      writePaths (FileEvent.readF p :: es) = writePaths es := by
    intro p es; simp [writePaths]
  have rcons : ∀ (p : String) (es : List FileEvent),
      readPaths (FileEvent.readF p :: es) = p :: readPaths es := by
    intro p es; simp [readPaths]
  have rconsW : ∀ (p : String) (es : List FileEvent),
      readPaths (FileEvent.writeF p :: es) = readPaths es := by
    intro p es; simp [readPaths]
  have wr : ∀ l : List String, writePaths (l.map FileEvent.readF) = [] := by
    intro l; induction l with
    | nil => rfl
    | cons a t ih => rw [List.map_cons, wconsR, ih]
  have ww : ∀ (g : String → String) (l : List String),
      writePaths (l.map (fun k => FileEvent.writeF (g k))) = l.map g := by
    intro g l; induction l with
    | nil => rfl
    | cons a t ih => rw [List.map_cons, wcons, ih, List.map_cons]
  have rr : ∀ l : List String, readPaths (l.map FileEvent.readF) = l := by
    intro l; induction l with
    | nil => rfl
    | cons a t ih => rw [List.map_cons, rcons, ih]
  have rw2 : ∀ (g : String → String) (l : List String),
      readPaths (l.map (fun k => FileEvent.writeF (g k))) = [] := by
    intro g l; induction l with
    | nil => rfl
    | cons a t ih => rw [List.map_cons, rconsW, ih]
  constructor
  · have h1 : writePaths (introspect_main_events L out) =
        writePaths (run_full_analysis_events L) ++ writePaths (save_results_events out) :=
      List.filterMap_append _ _ _
    rw [h1]
    unfold run_full_analysis_events save_results_events
    rw [wr]
    have h2 : writePaths
        ((introspection_result_keys.map
            (fun k => FileEvent.writeF (out ++ "/analysis/" ++ k ++ ".json"))) ++
          [FileEvent.writeF (out ++ "/INTROSPECTION_SUMMARY.md")]) =
        writePaths (introspection_result_keys.map
            (fun k => FileEvent.writeF (out ++ "/analysis/" ++ k ++ ".json"))) ++
          writePaths [FileEvent.writeF (out ++ "/INTROSPECTION_SUMMARY.md")] :=
      List.filterMap_append _ _ _
    rw [h2, ww (fun k => out ++ "/analysis/" ++ k ++ ".json")]
    rfl
  · have h1 : readPaths (introspect_main_events L out) =
        readPaths (run_full_analysis_events L) ++ readPaths (save_results_events out) :=
      List.filterMap_append _ _ _
    rw [h1]
    unfold run_full_analysis_events save_results_events
    rw [rr]
    have h2 : readPaths
        ((introspection_result_keys.map
            (fun k => FileEvent.writeF (out ++ "/analysis/" ++ k ++ ".json"))) ++
          [FileEvent.writeF (out ++ "/INTROSPECTION_SUMMARY.md")]) =
        readPaths (introspection_result_keys.map
            (fun k => FileEvent.writeF (out ++ "/analysis/" ++ k ++ ".json"))) ++
          readPaths [FileEvent.writeF (out ++ "/INTROSPECTION_SUMMARY.md")] :=
      List.filterMap_append _ _ _
    rw [h2, rw2 (fun k => out ++ "/analysis/" ++ k ++ ".json")]
    simp [readPaths]

/-- Claim C5: on a normal return the trace of files generate_module wrote
equals the files_created list it returns, and on an aborting exit nothing
was written; no other on-disk state is modelled because the source
performs no filesystem effect besides these writes and the mkdir calls
for their parent directories. -/
theorem generate_module_frame (fs : FSState) (cfg : ModuleCfg) :
    match generate_module fs cfg with
    | .ok w r => w = r
    | .exits _ w => w = []
    | .err _ => True := by
  cases hns : cfg.namespace_ with
  | none => simp [generate_module, hns]
  | some ns =>
  cases hmd : cfg.module with
  | none => simp [generate_module, hns, hmd]
  | some md =>
  cases hnames : List.mapM.loop (fun (e : EntityCfg) => e.name) (cfg.entities.getD []) [] with
  | none => simp [generate_module, hns, hmd, hnames]
  | some names =>
  by_cases hc : check_conflicts fs.pathExists ns md fs.scriptBase = []
  case neg => simp [generate_module, hns, hmd, hnames, hc]
  case pos =>
  cases hr : check_frontend_route_conflict fs (cfg.frontend_route.getD (pyLower md)) with
  | true => simp [generate_module, hns, hmd, hnames, hc, hr]
  | false =>
  cases hp : config_relationship_pairs cfg with
  | none => simp [generate_module, hns, hmd, hnames, hc, hr, hp]
  | some pairs =>
  by_cases hlast : cfg.skip_frontend.getD false = false ∧ cfg.entities.getD [] = []
  case pos => simp [generate_module, List.mapM.loop, hns, hmd, hnames, hc, hr, hp, hlast]
  case neg => simp [generate_module, hns, hmd, hnames, hc, hr, hp, hlast]

/-- Claim C10: when check_conflicts reports a non-empty conflict list for
the configured namespace and module, the run exits with code 1 having
written nothing. -/
theorem generate_module_conflict_abort (fs : FSState) (cfg : ModuleCfg) (ns md : String)
    (hns : cfg.namespace_ = some ns) (hmd : cfg.module = some md)
    (hconf : check_conflicts fs.pathExists ns md fs.scriptBase ≠ []) :
    run_main fs cfg = (1, []) := by
  unfold run_main generate_module
  simp only [hns, hmd]
  cases hnames : (cfg.entities.getD []).mapM (fun (e : EntityCfg) => e.name) with
  | none => rfl
  | some names =>
    simp only []
    rw [if_pos hconf]

/-- Witness instantiating generate_module_conflict_abort on a concrete
conflicting filesystem. -/
theorem generate_module_conflict_abort_witness :
    run_main conflictFS blogCfg = (1, []) :=
  generate_module_conflict_abort conflictFS blogCfg "Maho" "Blog" rfl rfl (by decide)

/-- Claim C4: on a successful run over a nonempty entity list, the
returned file list starts with the module declaration, then config.xml,
adminhtml.xml and Helper/Data.php, then the per-entity model and admin
files in entity order, then (after the remaining frontend and observer
files, collected in mid) the adminhtml layout immediately followed by the
frontend layout, with the SQL setup script last. -/
theorem generate_module_order (fs : FSState) (cfg : ModuleCfg) (ns md : String)
    (es : List EntityCfg) (w r : List String)
    (hns : cfg.namespace_ = some ns) (hmd : cfg.module = some md)
    (hes : cfg.entities = some es) (hne : es ≠ [])
    (hok : generate_module fs cfg = .ok w r) :
    ∃ names mid,
      es.mapM (fun (e : EntityCfg) => e.name) = some names ∧
      r = ("app/etc/modules/" ++ ns ++ "_" ++ md ++ ".xml") ::
        ("app/code/" ++ get_code_pool ns ++ "/" ++ ns ++ "/" ++ md ++ "/etc/config.xml") ::
        ("app/code/" ++ get_code_pool ns ++ "/" ++ ns ++ "/" ++ md ++ "/etc/adminhtml.xml") ::
        ("app/code/" ++ get_code_pool ns ++ "/" ++ ns ++ "/" ++ md ++ "/Helper/Data.php") ::
        (names.flatMap
            (per_entity_writes ("app/code/" ++ get_code_pool ns ++ "/" ++ ns ++ "/" ++ md)) ++
          mid ++
          ["app/design/adminhtml/default/default/layout/" ++ pyLower ns ++ "/" ++
              pyLower md ++ ".xml",
            "app/design/frontend/base/default/layout/" ++ pyLower ns ++ "/" ++
              pyLower md ++ ".xml",
            "app/code/" ++ get_code_pool ns ++ "/" ++ ns ++ "/" ++ md ++ "/sql/" ++
              pyLower ns ++ "_" ++ pyLower md ++ "_setup/install-1.0.0.php"]) := by
  unfold generate_module at hok
  rw [hns, hmd] at hok
  simp only [hes, Option.getD_some] at hok
  cases hnames : es.mapM (fun (e : EntityCfg) => e.name) with
  | none => rw [hnames] at hok; simp at hok
  | some names =>
    rw [hnames] at hok
    simp only [] at hok
    by_cases hc : check_conflicts fs.pathExists ns md fs.scriptBase = []
    case neg =>
      rw [if_pos hc] at hok
      simp at hok
    case pos =>
    rw [if_neg (fun h => h hc)] at hok
    cases hr : check_frontend_route_conflict fs (cfg.frontend_route.getD (pyLower md)) with
    | true => rw [hr] at hok; simp at hok
    | false =>
    rw [hr] at hok
    simp only [Bool.false_eq_true, if_false] at hok
    cases hp : config_relationship_pairs cfg with
    | none => rw [hp] at hok; simp at hok
    | some pairs =>
    rw [hp] at hok
    simp only [] at hok
    have hskip : ¬(cfg.skip_frontend.getD false = false ∧ es = []) := fun h => hne h.2
    rw [if_neg hskip] at hok
    rw [GenResult.ok.injEq] at hok
    refine ⟨names, (if cfg.skip_frontend.getD false = true then []
        else frontend_writes ("app/code/" ++ get_code_pool ns ++ "/" ++ ns ++ "/" ++ md)
          (pyLower ns) (pyLower md) es) ++
      (if es = [] then []
        else ["app/code/" ++ get_code_pool ns ++ "/" ++ ns ++ "/" ++ md ++
          "/Model/Observer/UrlRewrite.php"]), rfl, ?_⟩
    rw [← hok.2]
    simp only [if_neg hne]
    simp [List.append_assoc]

/-- Witness instantiating generate_module_order on a concrete one-entity
configuration over an empty filesystem. -/
theorem generate_module_order_witness :
    ∃ names mid,
      ([{ name := some "post" }] : List EntityCfg).mapM (fun (e : EntityCfg) => e.name) =
        some names ∧
      (generate_module emptyFS blogCfg).retList = some
        (("app/etc/modules/" ++ "Maho" ++ "_" ++ "Blog" ++ ".xml") ::
          ("app/code/" ++ get_code_pool "Maho" ++ "/" ++ "Maho" ++ "/" ++ "Blog" ++
            "/etc/config.xml") ::
          ("app/code/" ++ get_code_pool "Maho" ++ "/" ++ "Maho" ++ "/" ++ "Blog" ++
            "/etc/adminhtml.xml") ::
          ("app/code/" ++ get_code_pool "Maho" ++ "/" ++ "Maho" ++ "/" ++ "Blog" ++
            "/Helper/Data.php") ::
          (names.flatMap (per_entity_writes
              ("app/code/" ++ get_code_pool "Maho" ++ "/" ++ "Maho" ++ "/" ++ "Blog")) ++
            mid ++
            ["app/design/adminhtml/default/default/layout/" ++ pyLower "Maho" ++ "/" ++
                pyLower "Blog" ++ ".xml",
              "app/design/frontend/base/default/layout/" ++ pyLower "Maho" ++ "/" ++
                pyLower "Blog" ++ ".xml",
              "app/code/" ++ get_code_pool "Maho" ++ "/" ++ "Maho" ++ "/" ++ "Blog" ++
                "/sql/" ++ pyLower "Maho" ++ "_" ++ pyLower "Blog" ++
                "_setup/install-1.0.0.php"])) := by
  obtain ⟨names, mid, h1, h2⟩ :=
    generate_module_order emptyFS blogCfg "Maho" "Blog" [{ name := some "post" }] _ _
      rfl rfl rfl (by simp) rfl
  exact ⟨names, mid, h1, by rw [← h2]; rfl⟩

theorem fieldErrors_length (ref : String) (i : Nat) (f : FieldCfg) :
    (fieldErrors ref i f).length = fieldViolations f := by
  obtain ⟨fn, ft, v1, v2, v3, v4, v5⟩ := f
  unfold fieldErrors fieldViolations
  cases fn <;> cases ft <;> simp <;> split_ifs <;> simp

theorem relErrors_length (ref : String) (i : Nat) (r : RelCfg) :
    (relErrors ref i r).length = relViolations r := by
  obtain ⟨rt, ty, jt⟩ := r
  unfold relErrors relViolations
  cases rt <;> cases ty <;> simp <;> split_ifs <;> simp

theorem fieldErrors_flatten_length (ref : String) (fs : List FieldCfg) : ∀ k : Nat,
    (((List.enumFrom k fs).map fun p => fieldErrors ref p.1 p.2).flatten).length =
      (fs.map fieldViolations).sum := by
  induction fs with
  | nil => intro k; rfl
  | cons f t ih =>
    intro k
    simp only [List.enumFrom_cons, List.map_cons, List.flatten_cons, List.length_append,
      List.map_cons, List.sum_cons, fieldErrors_length, ih (k + 1)]

theorem relErrors_flatten_length (ref : String) (rs : List RelCfg) : ∀ k : Nat,
    (((List.enumFrom k rs).map fun p => relErrors ref p.1 p.2).flatten).length =
      (rs.map relViolations).sum := by
  induction rs with
  | nil => intro k; rfl
  | cons r t ih =>
    intro k
    simp only [List.enumFrom_cons, List.map_cons, List.flatten_cons, List.length_append,
      List.map_cons, List.sum_cons, relErrors_length, ih (k + 1)]

theorem entityErrors_length (i : Nat) (e : EntityCfg) :
    (entityErrors i e).length = entityViolations e := by
  unfold entityErrors entityViolations
  rw [List.length_append, List.length_append]
  congr 1
  · congr 1
    · cases e.name <;> simp
    · cases hf : e.fields with
      | none => rfl
      | some fs =>
        cases fs with
        | nil => rfl
        | cons f t => simp only [List.enum, fieldErrors_flatten_length]
  · cases hr : e.relationships with
    | none => rfl
    | some rs => simp only [Option.getD_some, List.enum, relErrors_flatten_length]

theorem entityErrors_flatten_length (es : List EntityCfg) : ∀ k : Nat,
    (((List.enumFrom k es).map fun p => entityErrors p.1 p.2).flatten).length =
      (es.map entityViolations).sum := by
  induction es with
  | nil => intro k; rfl
  | cons e t ih =>
    intro k
    simp only [List.enumFrom_cons, List.map_cons, List.flatten_cons, List.length_append,
      List.sum_cons, entityErrors_length, ih (k + 1)]

theorem fieldViolations_zero (f : FieldCfg) :
    fieldViolations f = 0 ↔ fieldOKspec f = true := by
  obtain ⟨fn, ft, v1, v2, v3, v4, v5⟩ := f
  unfold fieldViolations fieldOKspec
  cases fn <;> cases ft <;> simp <;> split_ifs <;> simp_all

theorem relViolations_zero (r : RelCfg) :
    relViolations r = 0 ↔ relOKspec r = true := by
  obtain ⟨rt, ty, jt⟩ := r
  unfold relViolations relOKspec
  cases rt <;> cases ty <;> simp <;> try split_ifs <;> simp_all
  tauto

theorem entityViolations_zero (e : EntityCfg) :
    entityViolations e = 0 ↔ entityOKspec e = true := by
  unfold entityViolations entityOKspec
  rw [Nat.add_eq_zero, Nat.add_eq_zero]
  rw [Bool.and_eq_true, Bool.and_eq_true]
  constructor
  · rintro ⟨⟨h1, h2⟩, h3⟩
    refine ⟨⟨?_, ?_⟩, ?_⟩
    · exact Option.isSome_iff_ne_none.mpr fun hn => one_ne_zero (by rwa [if_pos hn] at h1)
    · cases hf : e.fields with
      | none => rw [hf] at h2; exact absurd h2 one_ne_zero
      | some fs =>
        rw [hf] at h2
        cases fs with
        | nil => exact absurd h2 one_ne_zero
        | cons f t =>
          simp only [List.sum_eq_zero_iff, List.mem_map] at h2
          simp only [List.all_eq_true]
          rintro x hx
          exact (fieldViolations_zero x).mp (h2 _ ⟨x, hx, rfl⟩)
    · simp only [List.sum_eq_zero_iff, List.mem_map] at h3
      simp only [List.all_eq_true]
      rintro x hx
      exact (relViolations_zero x).mp (h3 _ ⟨x, hx, rfl⟩)
  · rintro ⟨⟨h1, h2⟩, h3⟩
    refine ⟨⟨?_, ?_⟩, ?_⟩
    · rw [if_neg (Option.isSome_iff_ne_none.mp h1)]
    · cases hf : e.fields with
      | none => rw [hf] at h2; exact absurd h2 (by simp)
      | some fs =>
        rw [hf] at h2
        cases fs with
        | nil => exact absurd h2 (by simp)
        | cons f t =>
          simp only [List.all_eq_true] at h2
          simp only [List.sum_eq_zero_iff, List.mem_map]
          rintro x ⟨y, hy, rfl⟩
          exact (fieldViolations_zero y).mpr (h2 y hy)
    · simp only [List.all_eq_true] at h3
      simp only [List.sum_eq_zero_iff, List.mem_map]
      rintro x ⟨y, hy, rfl⟩
      exact (relViolations_zero y).mpr (h3 y hy)

theorem configViolations_zero (c : ModuleCfg) :
    configViolations c = 0 ↔ configOKspec c = true := by
  unfold configViolations configOKspec
  rw [Nat.add_eq_zero, Nat.add_eq_zero]
  rw [Bool.and_eq_true, Bool.and_eq_true]
  constructor
  · rintro ⟨⟨h1, h2⟩, h3⟩
    refine ⟨⟨?_, ?_⟩, ?_⟩
    · exact Option.isSome_iff_ne_none.mpr fun hn => one_ne_zero (by rwa [if_pos hn] at h1)
    · exact Option.isSome_iff_ne_none.mpr fun hn => one_ne_zero (by rwa [if_pos hn] at h2)
    · cases hf : c.entities with
      | none => rw [hf] at h3; exact absurd h3 one_ne_zero
      | some es =>
        rw [hf] at h3
        cases es with
        | nil => exact absurd h3 one_ne_zero
        | cons e t =>
          simp only [List.sum_eq_zero_iff, List.mem_map] at h3
          simp only [List.all_eq_true]
          rintro x hx
          exact (entityViolations_zero x).mp (h3 _ ⟨x, hx, rfl⟩)
  · rintro ⟨⟨h1, h2⟩, h3⟩
    refine ⟨⟨?_, ?_⟩, ?_⟩
    · rw [if_neg (Option.isSome_iff_ne_none.mp h1)]
    · rw [if_neg (Option.isSome_iff_ne_none.mp h2)]
    · cases hf : c.entities with
      | none => rw [hf] at h3; exact absurd h3 (by simp)
      | some es =>
        rw [hf] at h3
        cases es with
        | nil => exact absurd h3 (by simp)
        | cons e t =>
          simp only [List.all_eq_true] at h3
          simp only [List.sum_eq_zero_iff, List.mem_map]
          rintro x ⟨y, hy, rfl⟩
          exact (entityViolations_zero y).mpr (h3 y hy)

theorem validate_config_length (c : ModuleCfg) :
    (validate_config c).2.length = configViolations c := by
  unfold validate_config configViolations
  simp only
  rw [List.length_append, List.length_append]
  congr 1
  · congr 1
    · cases c.name <;> simp
    · cases c.namespace_ <;> simp
  · cases hf : c.entities with
    | none => rfl
    | some es =>
      cases es with
      | nil => rfl
      | cons e t => simp only [List.enum, entityErrors_flatten_length]

/-- Claim C1: validate_config returns (True, []) exactly when the
configuration meets every requirement the claim lists; its first
component is the emptiness of its error list, and the error list carries
one message per violated requirement. -/
theorem validate_config_spec (c : ModuleCfg) :
    (validate_config c).1 = (validate_config c).2.isEmpty ∧
    (validate_config c).2.length = configViolations c ∧
    (validate_config c = (true, []) ↔ configOKspec c = true) := by
  refine ⟨rfl, validate_config_length c, ?_⟩
  constructor
  · intro h
    rw [← configViolations_zero, ← validate_config_length, h]
    rfl
  · intro h
    rw [← configViolations_zero, ← validate_config_length] at h
    have h2 : (validate_config c).2 = [] := List.length_eq_zero.mp h
    have h1 : (validate_config c).1 = true := by
      have : (validate_config c).1 = (validate_config c).2.isEmpty := rfl
      rw [this, h2]
      rfl
    calc validate_config c = ((validate_config c).1, (validate_config c).2) := rfl
      _ = (true, []) := by rw [h1, h2]

theorem fdType_comps (f : FieldCfg) :
    (fdType f).name = f.name ∧ (fdType f).type = some (f.type.getD "varchar") ∧
    (fdType f).nullable = f.nullable ∧ (fdType f).label = f.label ∧
    (fdType f).length = f.length ∧ (fdType f).admin_grid = f.admin_grid ∧
    (fdType f).admin_form = f.admin_form :=
  ⟨rfl, rfl, rfl, rfl, rfl, rfl, rfl⟩

theorem fdNullable_comps (f : FieldCfg) :
    (fdNullable f).name = f.name ∧ (fdNullable f).type = f.type ∧
    (fdNullable f).nullable = some (f.nullable.getD true) ∧ (fdNullable f).label = f.label ∧
    (fdNullable f).length = f.length ∧ (fdNullable f).admin_grid = f.admin_grid ∧
    (fdNullable f).admin_form = f.admin_form :=
  ⟨rfl, rfl, rfl, rfl, rfl, rfl, rfl⟩

theorem fdLabel_comps (f g : FieldCfg) (h : fdLabel f = some g) :
    g.name = f.name ∧ g.type = f.type ∧ g.nullable = f.nullable ∧
    g.label.isSome = true ∧ (∀ v, f.label = some v → g.label = some v) ∧
    g.length = f.length ∧ g.admin_grid = f.admin_grid ∧ g.admin_form = f.admin_form := by
  unfold fdLabel at h
  cases hl : f.label with
  | some v => rw [hl] at h; cases h; simp [hl]
  | none =>
    rw [hl] at h
    cases hn : f.name with
    | none => rw [hn] at h; exact Option.noConfusion h
    | some n => rw [hn] at h; cases h; simp [hl]

theorem fdLength_comps (f : FieldCfg) :
    (fdLength f).name = f.name ∧ (fdLength f).type = f.type ∧
    (fdLength f).nullable = f.nullable ∧ (fdLength f).label = f.label ∧
    (∀ v, f.length = some v → (fdLength f).length = some v) ∧
    (f.type = some "varchar" → (fdLength f).length = some (f.length.getD 255)) ∧
    (f.type ≠ some "varchar" → (fdLength f).length = f.length) ∧
    (fdLength f).admin_grid = f.admin_grid ∧ (fdLength f).admin_form = f.admin_form := by
  unfold fdLength
  split_ifs with h1 h2
  · rw [Bool.and_eq_true, Bool.or_eq_true] at h1
    obtain ⟨-, hlen⟩ := h1
    rw [decide_eq_true_eq] at hlen
    refine ⟨rfl, rfl, rfl, rfl, ?_, ?_, ?_, rfl, rfl⟩
    · intro v hv; rw [hv] at hlen; exact Option.noConfusion hlen
    · intro _; rw [hlen]; rfl
    · intro hne; exact absurd h2 hne
  · refine ⟨rfl, rfl, rfl, rfl, fun v hv => hv, ?_, fun _ => rfl, rfl, rfl⟩
    intro hv; exact absurd hv h2
  · rw [Bool.and_eq_true] at h1
    push_neg at h1
    refine ⟨rfl, rfl, rfl, rfl, fun v hv => hv, ?_, fun _ => rfl, rfl, rfl⟩
    intro hv
    by_cases hlen : f.length = none
    · exact absurd ((h1 (by rw [Bool.or_eq_true]; exact Or.inl (decide_eq_true hv))))
        (by simp [hlen])
    · cases hl : f.length with
      | none => exact absurd hl hlen
      | some v => rfl

theorem fdGrid_comps (f g : FieldCfg) (h : fdGrid f = some g) :
    g.name = f.name ∧ g.type = f.type ∧ g.nullable = f.nullable ∧ g.label = f.label ∧
    g.length = f.length ∧
    g.admin_grid.isSome = true ∧ (∀ v, f.admin_grid = some v → g.admin_grid = some v) ∧
    (f.admin_grid = none → ∃ n, f.name = some n ∧
      g.admin_grid = some (["name", "title", "status", "created_at"].contains n)) ∧
    g.admin_form = f.admin_form := by
  unfold fdGrid at h
  cases hl : f.admin_grid with
  | some v => rw [hl] at h; cases h; simp [hl]
  | none =>
    rw [hl] at h
    cases hn : f.name with
    | none => rw [hn] at h; exact Option.noConfusion h
    | some n =>
      rw [hn] at h; cases h
      refine ⟨rfl, rfl, rfl, rfl, rfl, rfl, ?_, ?_, rfl⟩
      · intro v hv; exact Option.noConfusion hv
      · intro _; exact ⟨n, rfl, rfl⟩

theorem fdForm_comps (f g : FieldCfg) (h : fdForm f = some g) :
    g.name = f.name ∧ g.type = f.type ∧ g.nullable = f.nullable ∧ g.label = f.label ∧
    g.length = f.length ∧ g.admin_grid = f.admin_grid ∧
    g.admin_form.isSome = true ∧ (∀ v, f.admin_form = some v → g.admin_form = some v) ∧
    (f.admin_form = none → ∃ n, f.name = some n ∧
      g.admin_form = some (!(["created_at", "updated_at"].contains n))) := by
  unfold fdForm at h
  cases hl : f.admin_form with
  | some v => rw [hl] at h; cases h; simp [hl]
  | none =>
    rw [hl] at h
    cases hn : f.name with
    | none => rw [hn] at h; exact Option.noConfusion h
    | some n =>
      rw [hn] at h; cases h
      refine ⟨rfl, rfl, rfl, rfl, rfl, rfl, rfl, ?_, ?_⟩
      · intro v hv; exact Option.noConfusion hv
      · intro _; exact ⟨n, rfl, rfl⟩

theorem fdType_id (f : FieldCfg) (h : f.type.isSome = true) : fdType f = f := by
  obtain ⟨fn, ft, v1, v2, v3, v4, v5⟩ := f
  cases ft with
  | none => exact absurd h (by simp)
  | some t => rfl

theorem fdNullable_id (f : FieldCfg) (h : f.nullable.isSome = true) : fdNullable f = f := by
  obtain ⟨fn, ft, fnu, v2, v3, v4, v5⟩ := f
  cases fnu with
  | none => exact absurd h (by simp)
  | some t => rfl

theorem fdLabel_id (f : FieldCfg) (h : f.label.isSome = true) : fdLabel f = some f := by
  unfold fdLabel
  cases hl : f.label with
  | none => rw [hl] at h; exact absurd h (by simp)
  | some t => rfl

theorem fdLength_id (f : FieldCfg) (h : f.type = some "varchar" → f.length.isSome = true) :
    fdLength f = f := by
  unfold fdLength
  split_ifs with h1 h2
  · rw [Bool.and_eq_true, decide_eq_true_eq] at h1
    rw [h1.2] at h
    exact absurd (h h2) (by simp)
  · rfl
  · rfl

theorem fdGrid_id (f : FieldCfg) (h : f.admin_grid.isSome = true) : fdGrid f = some f := by
  unfold fdGrid
  cases hl : f.admin_grid with
  | none => rw [hl] at h; exact absurd h (by simp)
  | some t => rfl

theorem fdForm_id (f : FieldCfg) (h : f.admin_form.isSome = true) : fdForm f = some f := by
  unfold fdForm
  cases hl : f.admin_form with
  | none => rw [hl] at h; exact absurd h (by simp)
  | some t => rfl

/-- Combined behaviour of the field half of apply_defaults: already
present keys are preserved, the defaults are installed, and a second run
leaves the result unchanged. -/
theorem apply_defaults_field_spec (f g : FieldCfg) (h : apply_defaults_field f = some g) :
    fieldPreserved f g ∧ fieldDefaulted f g ∧ apply_defaults_field g = some g := by
  unfold apply_defaults_field at h
  rw [Option.bind_eq_some] at h
  obtain ⟨f1, hf1, h⟩ := h
  rw [Option.bind_eq_some] at h
  obtain ⟨f2, hf2, hf3⟩ := h
  obtain ⟨e1n, e1t, e1u, e1ls, e1lp, e1len, e1g, e1f⟩ := fdLabel_comps _ _ hf1
  obtain ⟨e2n, e2t, e2u, e2l, e2len, e2gs, e2gp, e2gd, e2f⟩ := fdGrid_comps _ _ hf2
  obtain ⟨e3n, e3t, e3u, e3l, e3len, e3g, e3fs, e3fp, e3fd⟩ := fdForm_comps _ _ hf3
  obtain ⟨l1, l2, l3, l4, l5, l6, l7, l8, l9⟩ := fdLength_comps f1
  have gt : g.type = some (f.type.getD "varchar") := by
    rw [e3t, e2t, l2, e1t, (fdNullable_comps (fdType f)).2.1, (fdType_comps f).2.1]
  have gn : g.name = f.name := by
    rw [e3n, e2n, l1, e1n, (fdNullable_comps (fdType f)).1, (fdType_comps f).1]
  have gu : g.nullable = some (f.nullable.getD true) := by
    rw [e3u, e2u, l3, e1u, (fdNullable_comps (fdType f)).2.2.1, (fdType_comps f).2.2.1]
  have f1t : f1.type = some (f.type.getD "varchar") := by
    rw [e1t, (fdNullable_comps (fdType f)).2.1, (fdType_comps f).2.1]
  have f1len : f1.length = f.length := by
    rw [e1len, (fdNullable_comps (fdType f)).2.2.2.2.1, (fdType_comps f).2.2.2.2.1]
  have f1grid : f1.admin_grid = f.admin_grid := by
    rw [e1g, (fdNullable_comps (fdType f)).2.2.2.2.2.1, (fdType_comps f).2.2.2.2.2.1]
  have f1form : f1.admin_form = f.admin_form := by
    rw [e1f, (fdNullable_comps (fdType f)).2.2.2.2.2.2, (fdType_comps f).2.2.2.2.2.2]
  have f1name : f1.name = f.name := by
    rw [e1n, (fdNullable_comps (fdType f)).1, (fdType_comps f).1]
  have f1lab : f1.label.isSome = true := e1ls
  have f1labp : ∀ v, f.label = some v → f1.label = some v := by
    intro v hv
    apply e1lp
    rw [(fdNullable_comps (fdType f)).2.2.2.1, (fdType_comps f).2.2.2.1]
    exact hv
  have glab : g.label = f1.label := by rw [e3l, e2l, l4]
  have glen : g.length = (fdLength f1).length := by rw [e3len, e2len]
  have ggrid : ∀ v, f.admin_grid = some v → g.admin_grid = some v := by
    intro v hv
    rw [e3g]
    exact e2gp v (by rw [l8, f1grid]; exact hv)
  have ggrids : g.admin_grid.isSome = true := by rw [e3g]; exact e2gs
  have gform : ∀ v, f.admin_form = some v → g.admin_form = some v := by
    intro v hv
    exact e3fp v (by rw [e2f, l9, f1form]; exact hv)
  have gforms : g.admin_form.isSome = true := e3fs
  have gvar : g.type = some "varchar" → g.length.isSome = true ∧
      (f.length = none → g.length = some 255) := by
    intro hv
    have hvar : f1.type = some "varchar" := by rw [f1t, ← gt]; exact hv
    constructor
    · rw [glen, l6 hvar, f1len]; rfl
    · intro hnone
      rw [glen, l6 hvar, f1len, hnone]
      rfl
  refine ⟨⟨?_, ?_, ?_, ?_, ?_, ?_, ?_⟩, ⟨?_, ?_, ?_, ?_, ?_, ?_, ?_, ?_, ?_, ?_⟩, ?_⟩
  · intro v hv; rw [gn]; exact hv
  · intro v hv; rw [gt, hv]; rfl
  · intro v hv; rw [gu, hv]; rfl
  · intro v hv; rw [glab]; exact f1labp v hv
  · intro v hv; rw [glen]; exact l5 v (by rw [f1len]; exact hv)
  · exact ggrid
  · exact gform
  · rw [gt]; rfl
  · intro hv; rw [gt, hv]; rfl
  · rw [gu]; rfl
  · intro hv; rw [gu, hv]; rfl
  · rw [glab]; exact f1lab
  · exact ggrids
  · intro hv
    obtain ⟨n, hn1, hn2⟩ := e2gd (by rw [l8, f1grid]; exact hv)
    refine ⟨n, ?_, by rw [e3g]; exact hn2⟩
    rw [l1, f1name] at hn1
    exact hn1
  · exact gforms
  · intro hv
    obtain ⟨n, hn1, hn2⟩ := e3fd (by rw [e2f, l9, f1form]; exact hv)
    refine ⟨n, ?_, hn2⟩
    rw [e2n, l1, f1name] at hn1
    exact hn1
  · exact gvar
  · unfold apply_defaults_field
    rw [fdType_id g (by rw [gt]; rfl), fdNullable_id g (by rw [gu]; rfl),
      fdLabel_id g (by rw [glab]; exact f1lab), Option.some_bind,
      fdLength_id g (fun hv => (gvar hv).1), fdGrid_id g ggrids, Option.some_bind,
      fdForm_id g gforms]

theorem apply_defaults_rel_id (g : RelCfg) (h1 : g.type.isSome = true)
    (h2 : g.type = some "many_to_many" → g.junction_table.isSome = true)
    (ent2 : EntityCfg) : apply_defaults_rel ent2 g = some g := by
  obtain ⟨gt, gty, gj⟩ := g
  cases gty with
  | none => exact absurd h1 (by simp)
  | some ty =>
    unfold apply_defaults_rel
    simp only [Option.getD_some]
    by_cases hty : ty = "many_to_many"
    · subst hty
      cases gj with
      | none => exact absurd (h2 rfl) (by simp)
      | some j => simp
    · rw [if_neg]
      simp only [Bool.and_eq_true, decide_eq_true_eq]
      rintro ⟨hc, -⟩
      exact hty (Option.some_inj.mp hc)

/-- Combined behaviour of the relationship half of apply_defaults. -/
theorem apply_defaults_rel_spec (ent : EntityCfg) (r g : RelCfg)
    (h : apply_defaults_rel ent r = some g) :
    relPreserved r g ∧ relDefaulted r g ∧
      (∀ ent2, apply_defaults_rel ent2 g = some g) := by
  obtain ⟨rt, rty, rj⟩ := r
  unfold apply_defaults_rel at h
  by_cases hc : ((RelCfg.mk rt (some (rty.getD "many_to_many")) rj).type =
      some "many_to_many" && (RelCfg.mk rt (some (rty.getD "many_to_many")) rj).junction_table
        = none) = true
  · rw [if_pos hc] at h
    simp only [Bool.and_eq_true, decide_eq_true_eq] at hc
    obtain ⟨hmm, hjn⟩ := hc
    have hjn2 : rj = none := hjn
    subst hjn2
    cases hen : ent.name with
    | none => rw [hen] at h; exact Option.noConfusion h
    | some n =>
      rw [hen] at h
      cases hrt : rt with
      | none => rw [hrt] at h; exact Option.noConfusion h
      | some tgt =>
        rw [hrt] at h
        simp only [Option.some_inj] at h
        subst h
        refine ⟨⟨?_, ?_, ?_⟩, ⟨rfl, ?_, ?_⟩, ?_⟩
        · intro v hv; simpa using hv
        · intro v hv
          simp at hv
          simp [hv]
        · intro v hv; simp at hv
        · intro hv
          simp at hv
          simp [hv]
        · intro _; rfl
        · intro ent2
          apply apply_defaults_rel_id
          · rfl
          · intro _; rfl
  · rw [if_neg hc] at h
    simp only [Option.some_inj] at h
    subst h
    simp only [Bool.and_eq_true, decide_eq_true_eq, not_and] at hc
    refine ⟨⟨?_, ?_, ?_⟩, ⟨rfl, ?_, ?_⟩, ?_⟩
    · intro v hv; exact hv
    · intro v hv
      cases hv2 : rty with
      | none => rw [hv2] at hv; exact Option.noConfusion hv
      | some t2 =>
        rw [hv2] at hv
        simp only [Option.getD_some]
        exact hv
    · intro v hv; exact hv
    · intro hv
      simp at hv
      simp [hv]
    · intro hmm
      have := hc hmm
      cases hj : rj with
      | none => exact absurd hj this
      | some j => rfl
    · intro ent2
      apply apply_defaults_rel_id
      · rfl
      · intro hmm
        have := hc hmm
        cases hj : rj with
        | none => exact absurd hj this
        | some j => rfl

theorem edLabel_comps (e g : EntityCfg) (h : edLabel e = some g) :
    g.name = e.name ∧ g.label.isSome = true ∧ (∀ v, e.label = some v → g.label = some v) ∧
    g.table = e.table ∧ g.title = e.title ∧ g.fields = e.fields ∧
    g.admin_menu = e.admin_menu ∧ g.admin_acl = e.admin_acl ∧
    g.frontend_enabled = e.frontend_enabled ∧
    g.frontend_sidebar_blocks = e.frontend_sidebar_blocks ∧
    g.multi_store = e.multi_store ∧ g.relationships = e.relationships := by
  unfold edLabel at h
  cases hl : e.label with
  | some v => rw [hl] at h; cases h; simp [hl]
  | none =>
    rw [hl] at h
    cases hn : e.name with
    | none => rw [hn] at h; exact Option.noConfusion h
    | some n =>
      rw [hn] at h; cases h
      refine ⟨rfl, rfl, ?_, rfl, rfl, rfl, rfl, rfl, rfl, rfl, rfl, rfl⟩
      intro v hv; exact Option.noConfusion hv

theorem edTable_comps (e g : EntityCfg) (h : edTable e = some g) :
    g.name = e.name ∧ g.label = e.label ∧
    g.table.isSome = true ∧ (∀ v, e.table = some v → g.table = some v) ∧
    g.title = e.title ∧ g.fields = e.fields ∧
    g.admin_menu = e.admin_menu ∧ g.admin_acl = e.admin_acl ∧
    g.frontend_enabled = e.frontend_enabled ∧
    g.frontend_sidebar_blocks = e.frontend_sidebar_blocks ∧
    g.multi_store = e.multi_store ∧ g.relationships = e.relationships := by
  unfold edTable at h
  cases hl : e.table with
  | some v => rw [hl] at h; cases h; simp [hl]
  | none =>
    rw [hl] at h
    cases hn : e.name with
    | none => rw [hn] at h; exact Option.noConfusion h
    | some n =>
      rw [hn] at h; cases h
      refine ⟨rfl, rfl, rfl, ?_, rfl, rfl, rfl, rfl, rfl, rfl, rfl, rfl⟩
      intro v hv; exact Option.noConfusion hv

theorem edLabel_id (e : EntityCfg) (h : e.label.isSome = true) : edLabel e = some e := by
  unfold edLabel
  cases hl : e.label with
  | none => rw [hl] at h; exact absurd h (by simp)
  | some t => rfl

theorem edTable_id (e : EntityCfg) (h : e.table.isSome = true) : edTable e = some e := by
  unfold edTable
  cases hl : e.table with
  | none => rw [hl] at h; exact absurd h (by simp)
  | some t => rfl

theorem entity_set_fields (x : EntityCfg) (fs : List FieldCfg) (h : x.fields = some fs) :
    { x with fields := some fs } = x := by
  obtain ⟨a, b, c, d, xf, f1, f2, f3, f4, f5, f6⟩ := x
  cases h
  rfl

theorem entity_set_menu (x : EntityCfg) (h : x.admin_menu.isSome = true) :
    { x with admin_menu := some (x.admin_menu.getD true) } = x := by
  obtain ⟨a, b, c, d, xf, m, f2, f3, f4, f5, f6⟩ := x
  cases m with
  | none => exact absurd h (by simp)
  | some v => rfl

theorem entity_set_acl (x : EntityCfg) (h : x.admin_acl.isSome = true) :
    { x with admin_acl := some (x.admin_acl.getD true) } = x := by
  obtain ⟨a, b, c, d, xf, m, ac, f3, f4, f5, f6⟩ := x
  cases ac with
  | none => exact absurd h (by simp)
  | some v => rfl

theorem entity_set_enabled (x : EntityCfg) (h : x.frontend_enabled.isSome = true) :
    { x with frontend_enabled := some (x.frontend_enabled.getD false) } = x := by
  obtain ⟨a, b, c, d, xf, m, ac, fe, f4, f5, f6⟩ := x
  cases fe with
  | none => exact absurd h (by simp)
  | some v => rfl

theorem entity_set_rels (x : EntityCfg) (rs : List RelCfg) (h : x.relationships = some rs) :
    { x with relationships := some rs } = x := by
  obtain ⟨a, b, c, d, xf, m, ac, fe, f4, f5, xr⟩ := x
  cases h
  rfl

theorem edMulti_comps (x : EntityCfg) :
    (edMulti x).name = x.name ∧ (edMulti x).label = x.label ∧ (edMulti x).table = x.table ∧
    (edMulti x).title = x.title ∧ (edMulti x).fields = x.fields ∧
    (edMulti x).admin_menu = x.admin_menu ∧ (edMulti x).admin_acl = x.admin_acl ∧
    (edMulti x).frontend_enabled = x.frontend_enabled ∧
    (edMulti x).frontend_sidebar_blocks = x.frontend_sidebar_blocks ∧
    (∀ v, x.multi_store = some v → (edMulti x).multi_store = some v) ∧
    (edMulti x).relationships = x.relationships := by
  unfold edMulti
  split_ifs with hc
  · rw [Bool.and_eq_true, decide_eq_true_eq, decide_eq_true_eq] at hc
    refine ⟨rfl, rfl, rfl, rfl, rfl, rfl, rfl, rfl, rfl, ?_, rfl⟩
    intro v hv; rw [hc.2] at hv; exact Option.noConfusion hv
  · exact ⟨rfl, rfl, rfl, rfl, rfl, rfl, rfl, rfl, rfl, fun v hv => hv, rfl⟩

theorem edMulti_fix (x : EntityCfg) : edMulti (edMulti x) = edMulti x := by
  by_cases hc : (x.frontend_enabled = some true && x.multi_store = none) = true
  · have h1 : edMulti x = { x with multi_store := some true } := by
      unfold edMulti; rw [if_pos hc]
    rw [h1]
    unfold edMulti
    rw [if_neg (by simp)]
  · have h1 : edMulti x = x := by unfold edMulti; rw [if_neg hc]
    rw [h1, h1]

theorem edMulti_cond_false (x : EntityCfg) :
    ((edMulti x).frontend_enabled = some true && (edMulti x).multi_store = none) = false := by
  by_cases hc : (x.frontend_enabled = some true && x.multi_store = none) = true
  · have h1 : edMulti x = { x with multi_store := some true } := by
      unfold edMulti; rw [if_pos hc]
    rw [h1]
    simp
  · have h1 : edMulti x = x := by unfold edMulti; rw [if_neg hc]
    rw [h1]
    exact Bool.not_eq_true _ ▸ hc

theorem edFieldsFill_keep (x : EntityCfg) :
    (edFieldsFill x).name = x.name ∧ (edFieldsFill x).label = x.label ∧
    (edFieldsFill x).table = x.table ∧ (edFieldsFill x).title = x.title ∧
    (edFieldsFill x).admin_menu = x.admin_menu ∧ (edFieldsFill x).admin_acl = x.admin_acl ∧
    (edFieldsFill x).frontend_enabled = x.frontend_enabled ∧
    (edFieldsFill x).frontend_sidebar_blocks = x.frontend_sidebar_blocks ∧
    (edFieldsFill x).multi_store = x.multi_store ∧
    (edFieldsFill x).relationships = x.relationships := by
  unfold edFieldsFill
  split_ifs <;> exact ⟨rfl, rfl, rfl, rfl, rfl, rfl, rfl, rfl, rfl, rfl⟩

theorem edFieldsFill_fields (x : EntityCfg) :
    (edFieldsFill x).fields = some (x.fields.getD []) := by
  unfold edFieldsFill
  split_ifs with hf
  · rw [hf]
    rfl
  · cases hfs : x.fields with
    | none => exact absurd hfs hf
    | some fs => rfl

theorem edSetFields_rel (x : EntityCfg) (fs : List FieldCfg) :
    (edSetFields x fs).relationships = x.relationships := rfl

theorem edMenu_rel (x : EntityCfg) : (edMenu x).relationships = x.relationships := rfl

theorem edAcl_rel (x : EntityCfg) : (edAcl x).relationships = x.relationships := rfl

theorem edEnab_rel (x : EntityCfg) : (edEnab x).relationships = x.relationships := rfl

theorem edMulti_rel (x : EntityCfg) : (edMulti x).relationships = x.relationships :=
  (edMulti_comps x).2.2.2.2.2.2.2.2.2.2

theorem edFieldsFill_rel (x : EntityCfg) : (edFieldsFill x).relationships = x.relationships :=
  (edFieldsFill_keep x).2.2.2.2.2.2.2.2.2

/-- Combined behaviour of the entity part of apply_defaults: present keys
are preserved, the defaults are installed, and a second run leaves the
result unchanged. -/
theorem apply_defaults_entity_spec (e g : EntityCfg) (h : apply_defaults_entity e = some g) :
    entityPreserved e g ∧ entityDefaulted e g ∧ apply_defaults_entity g = some g := by
  unfold apply_defaults_entity at h
  rw [Option.bind_eq_some] at h
  obtain ⟨e1, he1, h⟩ := h
  rw [Option.bind_eq_some] at h
  obtain ⟨e2, he2, h⟩ := h
  rw [Option.bind_eq_some] at h
  obtain ⟨fs2, hfs2, h⟩ := h
  rw [edFieldsFill_fields] at hfs2
  simp only [Option.getD_some] at hfs2
  obtain ⟨c1n, c1ls, c1lp, c1tb, c1ti, c1f, c1m, c1a, c1fe, c1sb, c1ms, c1r⟩ :=
    edLabel_comps _ _ he1
  obtain ⟨c2n, c2l, c2ts, c2tp, c2ti, c2f, c2m, c2a, c2fe, c2sb, c2ms, c2r⟩ :=
    edTable_comps _ _ he2
  have t_name : e2.name = e.name := by rw [c2n, c1n]
  have t_labelS : e2.label.isSome = true := by rw [c2l]; exact c1ls
  have t_labelP : ∀ v, e.label = some v → e2.label = some v := fun v hv => by
    rw [c2l]; exact c1lp v hv
  have t_tableS : e2.table.isSome = true := c2ts
  have t_tableP : ∀ v, e.table = some v → e2.table = some v := fun v hv =>
    c2tp v (by rw [c1tb]; exact hv)
  have t_title : e2.title = e.title := by rw [c2ti, c1ti]
  have t_fields : e2.fields = e.fields := by rw [c2f, c1f]
  have t_menu : e2.admin_menu = e.admin_menu := by rw [c2m, c1m]
  have t_acl : e2.admin_acl = e.admin_acl := by rw [c2a, c1a]
  have t_fe : e2.frontend_enabled = e.frontend_enabled := by rw [c2fe, c1fe]
  have t_sb : e2.frontend_sidebar_blocks = e.frontend_sidebar_blocks := by rw [c2sb, c1sb]
  have t_ms : e2.multi_store = e.multi_store := by rw [c2ms, c1ms]
  have t_rel : e2.relationships = e.relationships := by rw [c2r, c1r]
  have hfs2e : (e.fields.getD []).mapM apply_defaults_field = some fs2 := by
    rw [← t_fields]; exact hfs2
  unfold edRels at h
  rw [edMulti_rel, edEnab_rel, edAcl_rel, edMenu_rel, edSetFields_rel, edFieldsFill_rel] at h
  cases hrel : e2.relationships with
  | none =>
    rw [hrel] at h
    simp only [Option.some_inj] at h
    have hg := h.symm
    clear h
    have gname : g.name = e2.name := by
      rw [hg, (edMulti_comps _).1]; exact (edFieldsFill_keep e2).1
    have glabel : g.label = e2.label := by
      rw [hg, (edMulti_comps _).2.1]; exact (edFieldsFill_keep e2).2.1
    have gtable : g.table = e2.table := by
      rw [hg, (edMulti_comps _).2.2.1]; exact (edFieldsFill_keep e2).2.2.1
    have gtitle : g.title = e2.title := by
      rw [hg, (edMulti_comps _).2.2.2.1]; exact (edFieldsFill_keep e2).2.2.2.1
    have gfields : g.fields = some fs2 := by
      rw [hg, (edMulti_comps _).2.2.2.2.1]
      rfl
    have gmenu : g.admin_menu = some (e2.admin_menu.getD true) := by
      rw [hg, (edMulti_comps _).2.2.2.2.2.1]
      exact congrArg (fun o : Option Bool => some (o.getD true)) (edFieldsFill_keep e2).2.2.2.2.1
    have gacl : g.admin_acl = some (e2.admin_acl.getD true) := by
      rw [hg, (edMulti_comps _).2.2.2.2.2.2.1]
      exact congrArg (fun o : Option Bool => some (o.getD true)) (edFieldsFill_keep e2).2.2.2.2.2.1
    have genab : g.frontend_enabled = some (e2.frontend_enabled.getD false) := by
      rw [hg, (edMulti_comps _).2.2.2.2.2.2.2.1]
      exact congrArg (fun o : Option Bool => some (o.getD false))
        (edFieldsFill_keep e2).2.2.2.2.2.2.1
    have gsb : g.frontend_sidebar_blocks = e2.frontend_sidebar_blocks := by
      rw [hg, (edMulti_comps _).2.2.2.2.2.2.2.2.1]
      exact (edFieldsFill_keep e2).2.2.2.2.2.2.2.1
    have gmsP : ∀ v, e2.multi_store = some v → g.multi_store = some v := by
      intro v hv
      rw [hg]
      exact (edMulti_comps _).2.2.2.2.2.2.2.2.2.1 v
        (((edFieldsFill_keep e2).2.2.2.2.2.2.2.2.1).trans hv)
    have grel : g.relationships = none := by
      rw [hg, (edMulti_comps _).2.2.2.2.2.2.2.2.2.2]
      exact ((edFieldsFill_keep e2).2.2.2.2.2.2.2.2.2).trans hrel
    have hMg : edMulti g = g := by rw [hg]; exact edMulti_fix _
    refine ⟨⟨?_, ?_, ?_, ?_, ?_, ?_, ?_, ?_, ?_, ?_, ?_⟩,
      ⟨?_, ?_, ?_, ?_, ?_, ?_, ?_, ?_, ?_⟩, ?_⟩
    · intro v hv; rw [gname, t_name]; exact hv
    · intro v hv; rw [glabel]; exact t_labelP v hv
    · intro v hv; rw [gtable]; exact t_tableP v hv
    · intro v hv; rw [gtitle, t_title]; exact hv
    · intro fs hfs
      refine ⟨fs2, gfields, ?_⟩
      apply mapM_option_forall2 apply_defaults_field fieldPreserved
        (fun a b hb => (apply_defaults_field_spec a b hb).1)
      rw [← hfs2e, hfs, Option.getD_some]
    · intro v hv; rw [gmenu, t_menu, hv]; rfl
    · intro v hv; rw [gacl, t_acl, hv]; rfl
    · intro v hv; rw [genab, t_fe, hv]; rfl
    · intro v hv; rw [gsb, t_sb]; exact hv
    · intro v hv; exact gmsP v (by rw [t_ms]; exact hv)
    · intro rs hrs
      rw [t_rel, hrs] at hrel
      exact Option.noConfusion hrel
    · rw [glabel]; exact t_labelS
    · rw [gtable]; exact t_tableS
    · rw [gfields]; rfl
    · rw [gmenu]; rfl
    · rw [gacl]; rfl
    · rw [genab]; rfl
    · intro hv; rw [genab, t_fe, hv]; rfl
    · rw [gfields]
      simp only [Option.getD_some]
      exact mapM_option_forall2 apply_defaults_field fieldDefaulted
        (fun a b hb => (apply_defaults_field_spec a b hb).2.1) _ _ hfs2e
    · rw [grel]
      intro r hr
      exact absurd hr (List.not_mem_nil r)
    · unfold apply_defaults_entity
      rw [edLabel_id g (by rw [glabel]; exact t_labelS), Option.some_bind,
        edTable_id g (by rw [gtable]; exact t_tableS), Option.some_bind]
      have hFF : edFieldsFill g = g := by
        unfold edFieldsFill
        rw [if_neg (by rw [gfields]; simp)]
      rw [hFF, gfields]
      simp only [Option.getD_some]
      rw [mapM_option_fix apply_defaults_field apply_defaults_field
        (fun a b hb => (apply_defaults_field_spec a b hb).2.2) _ _ hfs2e]
      simp only [Option.some_bind]
      have hSF : edSetFields g fs2 = g := by
        unfold edSetFields; exact entity_set_fields g fs2 gfields
      have hMen : edMenu g = g := by
        unfold edMenu; exact entity_set_menu g (by rw [gmenu]; rfl)
      have hAcl : edAcl g = g := by
        unfold edAcl; exact entity_set_acl g (by rw [gacl]; rfl)
      have hEn : edEnab g = g := by
        unfold edEnab; exact entity_set_enabled g (by rw [genab]; rfl)
      rw [hSF, hMen, hAcl, hEn, hMg]
      unfold edRels
      rw [grel]
  | some rs0 =>
    rw [hrel] at h
    simp only [] at h
    rw [Option.bind_eq_some] at h
    obtain ⟨rs2, hrs2, h⟩ := h
    simp only [Option.some_inj] at h
    have hg := h.symm
    clear h
    have gname : g.name = e2.name := by
      rw [hg]
      rw [(edMulti_comps _).1]; exact (edFieldsFill_keep e2).1
    have glabel : g.label = e2.label := by
      rw [hg]
      rw [(edMulti_comps _).2.1]; exact (edFieldsFill_keep e2).2.1
    have gtable : g.table = e2.table := by
      rw [hg]
      rw [(edMulti_comps _).2.2.1]; exact (edFieldsFill_keep e2).2.2.1
    have gtitle : g.title = e2.title := by
      rw [hg]
      rw [(edMulti_comps _).2.2.2.1]; exact (edFieldsFill_keep e2).2.2.2.1
    have gfields : g.fields = some fs2 := by
      rw [hg]
      rw [(edMulti_comps _).2.2.2.2.1]
      rfl
    have gmenu : g.admin_menu = some (e2.admin_menu.getD true) := by
      rw [hg]
      rw [(edMulti_comps _).2.2.2.2.2.1]
      exact congrArg (fun o : Option Bool => some (o.getD true)) (edFieldsFill_keep e2).2.2.2.2.1
    have gacl : g.admin_acl = some (e2.admin_acl.getD true) := by
      rw [hg]
      rw [(edMulti_comps _).2.2.2.2.2.2.1]
      exact congrArg (fun o : Option Bool => some (o.getD true)) (edFieldsFill_keep e2).2.2.2.2.2.1
    have genab : g.frontend_enabled = some (e2.frontend_enabled.getD false) := by
      rw [hg]
      rw [(edMulti_comps _).2.2.2.2.2.2.2.1]
      exact congrArg (fun o : Option Bool => some (o.getD false))
        (edFieldsFill_keep e2).2.2.2.2.2.2.1
    have gsb : g.frontend_sidebar_blocks = e2.frontend_sidebar_blocks := by
      rw [hg]
      rw [(edMulti_comps _).2.2.2.2.2.2.2.2.1]
      exact (edFieldsFill_keep e2).2.2.2.2.2.2.2.1
    have gmsP : ∀ v, e2.multi_store = some v → g.multi_store = some v := by
      intro v hv
      rw [hg]
      exact (edMulti_comps _).2.2.2.2.2.2.2.2.2.1 v
        (((edFieldsFill_keep e2).2.2.2.2.2.2.2.2.1).trans hv)
    have grel : g.relationships = some rs2 := by rw [hg]
    have hMg : edMulti g = g := by
      have hcondg : ((g.frontend_enabled = some true && g.multi_store = none)) = false := by
        rw [hg]
        exact edMulti_cond_false _
      unfold edMulti
      rw [if_neg (by rw [hcondg]; simp)]
    refine ⟨⟨?_, ?_, ?_, ?_, ?_, ?_, ?_, ?_, ?_, ?_, ?_⟩,
      ⟨?_, ?_, ?_, ?_, ?_, ?_, ?_, ?_, ?_⟩, ?_⟩
    · intro v hv; rw [gname, t_name]; exact hv
    · intro v hv; rw [glabel]; exact t_labelP v hv
    · intro v hv; rw [gtable]; exact t_tableP v hv
    · intro v hv; rw [gtitle, t_title]; exact hv
    · intro fs hfs
      refine ⟨fs2, gfields, ?_⟩
      apply mapM_option_forall2 apply_defaults_field fieldPreserved
        (fun a b hb => (apply_defaults_field_spec a b hb).1)
      rw [← hfs2e, hfs, Option.getD_some]
    · intro v hv; rw [gmenu, t_menu, hv]; rfl
    · intro v hv; rw [gacl, t_acl, hv]; rfl
    · intro v hv; rw [genab, t_fe, hv]; rfl
    · intro v hv; rw [gsb, t_sb]; exact hv
    · intro v hv; exact gmsP v (by rw [t_ms]; exact hv)
    · intro rs hrs
      rw [t_rel, hrs] at hrel
      refine ⟨rs2, grel, ?_⟩
      apply mapM_option_forall2 _ relPreserved
        (fun a b hb => (apply_defaults_rel_spec _ a b hb).1)
      rw [← hrs2, Option.some_inj.mp hrel]
    · rw [glabel]; exact t_labelS
    · rw [gtable]; exact t_tableS
    · rw [gfields]; rfl
    · rw [gmenu]; rfl
    · rw [gacl]; rfl
    · rw [genab]; rfl
    · intro hv; rw [genab, t_fe, hv]; rfl
    · rw [gfields]
      simp only [Option.getD_some]
      exact mapM_option_forall2 apply_defaults_field fieldDefaulted
        (fun a b hb => (apply_defaults_field_spec a b hb).2.1) _ _ hfs2e
    · rw [grel]
      intro r hr
      simp only [Option.getD_some] at hr
      obtain ⟨a, ha, hab⟩ := (mapM_option_mem _ rs0 rs2 hrs2 r).mp hr
      have hd := (apply_defaults_rel_spec _ a r hab).2.1
      exact ⟨hd.1, hd.2.2⟩
    · unfold apply_defaults_entity
      rw [edLabel_id g (by rw [glabel]; exact t_labelS), Option.some_bind,
        edTable_id g (by rw [gtable]; exact t_tableS), Option.some_bind]
      have hFF : edFieldsFill g = g := by
        unfold edFieldsFill
        rw [if_neg (by rw [gfields]; simp)]
      rw [hFF, gfields]
      simp only [Option.getD_some]
      rw [mapM_option_fix apply_defaults_field apply_defaults_field
        (fun a b hb => (apply_defaults_field_spec a b hb).2.2) _ _ hfs2e]
      simp only [Option.some_bind]
      have hSF : edSetFields g fs2 = g := by
        unfold edSetFields; exact entity_set_fields g fs2 gfields
      have hMen : edMenu g = g := by
        unfold edMenu; exact entity_set_menu g (by rw [gmenu]; rfl)
      have hAcl : edAcl g = g := by
        unfold edAcl; exact entity_set_acl g (by rw [gacl]; rfl)
      have hEn : edEnab g = g := by
        unfold edEnab; exact entity_set_enabled g (by rw [genab]; rfl)
      rw [hSF, hMen, hAcl, hEn, hMg]
      unfold edRels
      rw [grel]
      simp only []
      rw [mapM_option_fix _ (apply_defaults_rel g)
        (fun a b hb => (apply_defaults_rel_spec _ a b hb).2.2 g) _ _ hrs2]
      simp only [Option.some_bind]
      rw [entity_set_rels g rs2 grel]

theorem module_set_ns (x : ModuleCfg) (h : x.namespace_.isSome = true) :
    { x with namespace_ := some (x.namespace_.getD "Maho") } = x := by
  obtain ⟨a, ns, b, c, d, e, f, s⟩ := x
  cases ns with
  | none => exact absurd h (by simp)
  | some v => rfl

theorem module_set_version (x : ModuleCfg) (h : x.version.isSome = true) :
    { x with version := some (x.version.getD "24.11.0") } = x := by
  obtain ⟨a, ns, ver, c, d, e, f, s⟩ := x
  cases ver with
  | none => exact absurd h (by simp)
  | some v => rfl

theorem module_set_entities (x : ModuleCfg) (es : List EntityCfg) (h : x.entities = some es) :
    { x with entities := some es } = x := by
  obtain ⟨a, ns, ver, c, xe, e, f, s⟩ := x
  cases h
  rfl

theorem cdVersion_ents (x : ModuleCfg) : (cdVersion x).entities = x.entities := rfl

theorem cdNamespace_ents (x : ModuleCfg) : (cdNamespace x).entities = x.entities := rfl

/-- Combined behaviour of apply_defaults on a whole configuration: present
keys are preserved at every level, the documented defaults are installed,
and a second run leaves the result unchanged. -/
theorem apply_defaults_core (c g : ModuleCfg) (h : apply_defaults c = some g) :
    configPreserved c g ∧ configDefaulted c g ∧ apply_defaults g = some g := by
  unfold apply_defaults at h
  unfold cdEntities at h
  rw [cdVersion_ents, cdNamespace_ents] at h
  cases hes : c.entities with
  | none =>
    rw [hes] at h
    simp only [Option.some_inj] at h
    have hg := h.symm
    clear h
    have gname : g.name = c.name := by rw [hg]; rfl
    have gns : g.namespace_ = some (c.namespace_.getD "Maho") := by rw [hg]; rfl
    have gver : g.version = some (c.version.getD "24.11.0") := by rw [hg]; rfl
    have gmod : g.module = c.module := by rw [hg]; rfl
    have gents : g.entities = c.entities := by rw [hg]; rfl
    have grels : g.relationships = c.relationships := by rw [hg]; rfl
    have groute : g.frontend_route = c.frontend_route := by rw [hg]; rfl
    have gskip : g.skip_frontend = c.skip_frontend := by rw [hg]; rfl
    refine ⟨⟨?_, ?_, ?_, ?_, ?_, ?_, ?_, ?_⟩, ⟨?_, ?_, ?_⟩, ?_⟩
    · intro v hv; rw [gname]; exact hv
    · intro v hv; rw [gns, hv]; rfl
    · intro v hv; rw [gver, hv]; rfl
    · intro v hv; rw [gmod]; exact hv
    · intro es hv
      rw [hv] at hes
      exact Option.noConfusion hes
    · intro v hv; rw [grels]; exact hv
    · intro v hv; rw [groute]; exact hv
    · intro v hv; rw [gskip]; exact hv
    · rw [gns]; rfl
    · rw [gver]; rfl
    · rw [gents, hes]
      exact List.Forall₂.nil
    · have hN : cdNamespace g = g := by
        unfold cdNamespace; exact module_set_ns g (by rw [gns]; rfl)
      have hV : cdVersion g = g := by
        unfold cdVersion; exact module_set_version g (by rw [gver]; rfl)
      unfold apply_defaults
      rw [hN, hV]
      unfold cdEntities
      rw [gents, hes]
  | some es =>
    rw [hes] at h
    simp only [] at h
    rw [Option.bind_eq_some] at h
    obtain ⟨es2, hes2, h⟩ := h
    simp only [Option.some_inj] at h
    have hg := h.symm
    clear h
    have gname : g.name = c.name := by rw [hg]; rfl
    have gns : g.namespace_ = some (c.namespace_.getD "Maho") := by rw [hg]; rfl
    have gver : g.version = some (c.version.getD "24.11.0") := by rw [hg]; rfl
    have gmod : g.module = c.module := by rw [hg]; rfl
    have gents : g.entities = some es2 := by rw [hg]
    have grels : g.relationships = c.relationships := by rw [hg]; rfl
    have groute : g.frontend_route = c.frontend_route := by rw [hg]; rfl
    have gskip : g.skip_frontend = c.skip_frontend := by rw [hg]; rfl
    refine ⟨⟨?_, ?_, ?_, ?_, ?_, ?_, ?_, ?_⟩, ⟨?_, ?_, ?_⟩, ?_⟩
    · intro v hv; rw [gname]; exact hv
    · intro v hv; rw [gns, hv]; rfl
    · intro v hv; rw [gver, hv]; rfl
    · intro v hv; rw [gmod]; exact hv
    · intro es0 hv
      rw [hv] at hes
      refine ⟨es2, gents, ?_⟩
      apply mapM_option_forall2 apply_defaults_entity entityPreserved
        (fun a b hb => (apply_defaults_entity_spec a b hb).1)
      rw [← hes2, Option.some_inj.mp hes]
    · intro v hv; rw [grels]; exact hv
    · intro v hv; rw [groute]; exact hv
    · intro v hv; rw [gskip]; exact hv
    · rw [gns]; rfl
    · rw [gver]; rfl
    · rw [gents, hes]
      simp only [Option.getD_some]
      exact mapM_option_forall2 apply_defaults_entity entityDefaulted
        (fun a b hb => (apply_defaults_entity_spec a b hb).2.1) _ _ hes2
    · have hN : cdNamespace g = g := by
        unfold cdNamespace; exact module_set_ns g (by rw [gns]; rfl)
      have hV : cdVersion g = g := by
        unfold cdVersion; exact module_set_version g (by rw [gver]; rfl)
      unfold apply_defaults
      rw [hN, hV]
      unfold cdEntities
      rw [gents]
      simp only []
      rw [mapM_option_fix apply_defaults_entity apply_defaults_entity
        (fun a b hb => (apply_defaults_entity_spec a b hb).2.2) _ _ hes2]
      simp only [Option.some_bind]
      rw [module_set_entities g es2 gents]

/-- C2: whenever apply_defaults succeeds, it never changes the value of a
key that was already present at any level, and in its result namespace and
version are present, every entity has label, table, fields, admin menu and
acl flags and a frontend enabled flag defaulting to false, every field has
type, nullable, label, admin grid and form flags with the documented
name-based defaults, every varchar field has a length, and every
many_to_many relationship has a junction_table. -/
theorem apply_defaults_spec (c g : ModuleCfg) (h : apply_defaults c = some g) :
    configPreserved c g ∧ configDefaulted c g :=
  ⟨(apply_defaults_core c g h).1, (apply_defaults_core c g h).2.1⟩

theorem apply_defaults_spec_witness :
    apply_defaults c2wIn = some c2wOut ∧
      (configPreserved c2wIn c2wOut ∧ configDefaulted c2wIn c2wOut) :=
  ⟨by decide, apply_defaults_spec c2wIn c2wOut (by decide)⟩

/-- C9: apply_defaults is idempotent: a second run on any configuration it
produced returns that configuration unchanged. -/
theorem apply_defaults_idem (c g : ModuleCfg) (h : apply_defaults c = some g) :
    apply_defaults g = some g :=
  (apply_defaults_core c g h).2.2

theorem apply_defaults_idem_witness :
    apply_defaults c9wIn = some c9wOut ∧ apply_defaults c9wOut = some c9wOut :=
  ⟨by decide, apply_defaults_idem c9wIn c9wOut (by decide)⟩

end MahoGen
